import Mathlib

/-!
# PTR-record resource of the Infoblox Terraform provider

A shallow embedding of `infoblox/resource_infoblox_ptr_record.go`.

* `ResourceData` models the part of the Terraform SDK's `schema.ResourceData`
  the resource uses: the prior state and the planned values (the two components
  of `GetChange`), the values written with `Set` (read back by `Get`), and the
  resource ID.
* `Env` collects what the resource functions take from outside the file:
  package constants and helpers (`checkAndTrimSpaces`, `terraformDeserializeEAs`,
  `generateInternalId`, ...) and the object manager of the NIOS client. The
  answers of the object manager may depend on the calls made before.
* A run of a resource function yields a `Result`: how the function ended
  (returned nil, returned an error, panicked), the resource data at that point
  and the object-manager calls it made, in order.
* The two long functions are cut at line boundaries: `resourcePTRRecordCreate`
  continues in `createCall` and `createSetState`; the body of
  `resourcePTRRecordUpdate` continues in `updateSourceCheck`, `updatePrepare`,
  `updateCall` and `updateSetState`, and `revertState` is its deferred function.
* `resourcePTRRecordGet` continues in `readSetState` and `readSetRest`;
  `resourcePTRRecordDelete` is a single definition.
* The creation of an `infoblox_dtc_pool` resource, whose source file is not part
  of the embedded sources, is modelled in `resourceDtcPoolCreate` from the
  expectations of its acceptance test.
-/

namespace Infoblox

/-! ## Schema and resource data -/

/-- Keys of the `Schema` map of `resourcePTRRecord`. -/
inductive Attr
  | network_view
  | cidr
  | ip_addr
  | dns_view
  | ptrdname
  | record_name
  | ttl
  | comment
  | ext_attrs
  | internal_id
  | ref
  deriving DecidableEq, Repr

/-- Value types used by the schema. -/
inductive Ty
  | TypeString
  | TypeInt
  deriving DecidableEq, Repr

/-- The `Type` entry of each schema key: `ttl` is `TypeInt`, every other key is `TypeString`. -/
def schemaType : Attr → Ty
  | .ttl => .TypeInt
  | _ => .TypeString

/-- A value handed to `d.Set`. -/
inductive Val
  | str (s : String)
  | int (n : Int)
  deriving DecidableEq, Repr

/-- Schema type a value fits. -/
def Val.type : Val → Ty
  | .str _ => .TypeString
  | .int _ => .TypeInt

/-- An error value received from a callee (SDK, helper or NIOS client): its message and
whether it is an `*ibclient.NotFoundError`. -/
structure CalleeError where
  msg : String
  notFound : Bool
  deriving DecidableEq, Repr

/-- Error values a resource function returns. `errorf format args` is
`fmt.Errorf(format, args...)`, `newNotFound format args` is
`ibclient.NewNotFoundError(fmt.Sprintf(format, args...))`, `passed e` is an error of a
callee returned as it is. -/
inductive Error
  | errorf (format : String) (args : List String)
  | newNotFound (format : String) (args : List String)
  | passed (e : CalleeError)
  deriving DecidableEq, Repr

/-- The resource data `d`: prior state (`old*`), planned values (`new*`), the writes made
with `Set` (most recent first) and the resource ID. String-typed keys live in the `*Str`
components, the integer key `ttl` in the `*Int` components. -/
structure ResourceData where
  oldStr : Attr → String
  oldInt : Attr → Int
  newStr : Attr → String
  newInt : Attr → Int
  writes : List (Attr × Val)
  id : String

/-- Most recent value written under a key, if any. -/
def lastWrite : List (Attr × Val) → Attr → Option Val
  | [], _ => none
  | (k, v) :: rest, a => if k = a then some v else lastWrite rest a

/-- For a string key, `d.Get(key).(string)`: the value written last, else the planned value. -/
def ResourceData.GetString (d : ResourceData) (k : Attr) : String :=
  match lastWrite d.writes k with
  | some (.str s) => s
  | _ => d.newStr k

/-- For an integer key, `d.Get(key).(int)`. -/
def ResourceData.GetInt (d : ResourceData) (k : Attr) : Int :=
  match lastWrite d.writes k with
  | some (.int n) => n
  | _ => d.newInt k

/-- For a string key, `d.GetOk(key)`: the value, and whether it is set to a non-zero value. -/
def ResourceData.GetOkString (d : ResourceData) (k : Attr) : String × Bool :=
  (d.GetString k, decide (d.GetString k ≠ ""))

/-- For a string key, `d.GetChange(key)`: the value in the prior state and the planned value. -/
def ResourceData.GetChangeString (d : ResourceData) (k : Attr) : String × String :=
  (d.oldStr k, d.newStr k)

/-- For an integer key, `d.GetChange(key)`. -/
def ResourceData.GetChangeInt (d : ResourceData) (k : Attr) : Int × Int :=
  (d.oldInt k, d.newInt k)

/-- Whether the two components of `d.GetChange(key)` differ: `d.HasChange(key)`. -/
def ResourceData.HasChange (d : ResourceData) (k : Attr) : Bool :=
  match schemaType k with
  | .TypeString => decide ((d.GetChangeString k).1 ≠ (d.GetChangeString k).2)
  | .TypeInt => decide ((d.GetChangeInt k).1 ≠ (d.GetChangeInt k).2)

/-- Error of `d.Set` for a value that does not fit the schema type of the key. -/
def setTypeError : CalleeError :=
  ⟨"value does not match the schema type of the field", false⟩

/-- The call `d.Set(key, value)` of the SDK: a value of the schema type of the key is
recorded as the latest write of that key; any other value is refused with an error. -/
def ResourceData.Set (d : ResourceData) (k : Attr) (v : Val) : Except CalleeError ResourceData :=
  if schemaType k = v.type then
    .ok { d with writes := (k, v) :: d.writes }
  else
    .error setTypeError

/-- The call `d.SetId(v)`. -/
def ResourceData.SetId (d : ResourceData) (v : String) : ResourceData :=
  { d with id := v }

/-- The call `d.Id()`. -/
def ResourceData.Id (d : ResourceData) : String := d.id

/-! ## Extensible attributes -/

/-- A value of an extensible attribute (`interface{}` in `map[string]interface{}`): a string,
or a value of another dynamic type. -/
inductive EAValue
  | str (s : String)
  | num (n : Int)
  | bool (b : Bool)
  | list (l : List String)
  deriving DecidableEq, Repr

/-- The map of extensible attributes, kept as an association list with one entry per key. -/
abbrev EA := List (String × EAValue)

/-- Map read `m[k]` with the comma-ok form. -/
def EA.get : EA → String → Option EAValue
  | [], _ => none
  | (k, v) :: rest, a => if k = a then some v else EA.get rest a

/-- Map deletion `delete(m, k)`. -/
def EA.delete : EA → String → EA
  | [], _ => []
  | (k, v) :: rest, a => if k = a then EA.delete rest a else (k, v) :: EA.delete rest a

/-- Map assignment `m[k] = v`. -/
def EA.set (m : EA) (k : String) (v : EAValue) : EA :=
  (k, v) :: EA.delete m k

/-! ## NIOS objects, object-manager calls, environment -/

/-- The fields of `ibclient.RecordPTR` the resource reads. Pointer fields that the code
dereferences are options (`none` is the nil pointer); `Name`, `PtrdName` and `Comment` are
only handed to `d.Set`, which stores the empty string for a nil pointer, so they are plain
strings. -/
structure RecordPTR where
  Ref : String
  Name : String
  Ipv4Addr : Option String
  Ipv6Addr : Option String
  PtrdName : String
  View : String
  Comment : String
  Ttl : Option Nat
  UseTtl : Option Bool
  Ea : EA
  deriving DecidableEq, Repr

/-- The field of the DNS view object the resource reads. -/
structure DNSView where
  NetworkView : String
  deriving DecidableEq, Repr

/-- Arguments of `objMgr.CreatePTRRecord`, in the order of its parameters. -/
structure CreatePTRRecordArgs where
  networkView : String
  dnsView : String
  ptrdname : String
  recordName : String
  cidr : String
  ipAddr : String
  useTtl : Bool
  ttl : Nat
  comment : String
  eas : EA
  deriving DecidableEq, Repr

/-- Arguments of `objMgr.UpdatePTRRecord`, in the order of its parameters. -/
structure UpdatePTRRecordArgs where
  ref : String
  netview : String
  ptrdname : String
  recordName : String
  cidr : String
  ipAddr : String
  useTtl : Bool
  ttl : Nat
  comment : String
  eas : EA
  deriving DecidableEq, Repr

/-- A call of a method of the object manager; `tenantID` is the tenant the manager was
created with (`ibclient.NewObjectManager(connector, "Terraform", tenantID)`). The two
package helpers that are handed the connector, `mergeEAs` and
`searchObjectByRefOrInternalId`, are recorded as calls too, with the arguments that are
plain data. -/
inductive Call
  | CreatePTRRecord (tenantID : String) (args : CreatePTRRecordArgs)
  | GetDNSView (tenantID : String) (name : String)
  | GetPTRRecordByRef (tenantID : String) (ref : String)
  | UpdatePTRRecord (tenantID : String) (args : UpdatePTRRecordArgs)
  | DeletePTRRecord (tenantID : String) (ref : String)
  | mergeEAs (niosEAs newEAs oldEAs : EA)
  | searchObjectByRefOrInternalId (objType : String)
  deriving DecidableEq, Repr

/-- Whether a call is a `CreatePTRRecord`. -/
def Call.isCreatePTRRecord : Call → Bool
  | .CreatePTRRecord _ _ => true
  | _ => false

/-- Whether a call is a `GetPTRRecordByRef`. -/
def Call.isGetPTRRecordByRef : Call → Bool
  | .GetPTRRecordByRef _ _ => true
  | _ => false

/-- Whether a call is an `UpdatePTRRecord`. -/
def Call.isUpdatePTRRecord : Call → Bool
  | .UpdatePTRRecord _ _ => true
  | _ => false

/-- Whether a call is a `DeletePTRRecord`. -/
def Call.isDeletePTRRecord : Call → Bool
  | .DeletePTRRecord _ _ => true
  | _ => false

/-- What `searchObjectByRefOrInternalId` found, as the two statements
`recJson, _ := json.Marshal(rec)` and `err = json.Unmarshal(recJson, &obj)` see it:
`decoded` is the record the object decodes to (`none` when `Unmarshal` leaves a pointer
`obj` nil, as it does for a null object or for text it cannot parse), `decodeErr` is the
error of `Unmarshal`, if there is one. -/
structure FoundObject where
  decoded : Option RecordPTR
  decodeErr : Option CalleeError
  deriving DecidableEq, Repr

/-- The zero value of `ibclient.RecordPTR`, the start value of `var obj ibclient.RecordPTR`. -/
def zeroRecordPTR : RecordPTR :=
  { Ref := ""
    Name := ""
    Ipv4Addr := none
    Ipv6Addr := none
    PtrdName := ""
    View := ""
    Comment := ""
    Ttl := none
    UseTtl := none
    Ea := [] }

/-- The internal ID of a resource (`internalResourceId`), with its string form. -/
structure internalResourceId where
  value : String
  deriving DecidableEq, Repr

/-- The method `String()` of an internal ID. -/
def internalResourceId.String (id : internalResourceId) : String := id.value

/-- What the resource functions use from outside `resource_infoblox_ptr_record.go`:
constants and helpers of the package, and the object manager of the NIOS client. Each
object-manager method gets the calls made so far (oldest first) and the tenant ID besides
its own arguments. `generateInternalId` is the ID generated in this run. `mergeEAs` is
taken without its `connector` argument, as a function of the three attribute maps.
`searchObjectByRefOrInternalId` gets the calls made so far, the object type and the
resource data, which it only reads. -/
structure Env where
  defaultNetView : String
  ttlUndef : Int
  eaNameForInternalId : String
  eaNameForTenantId : String
  errMsgFormatLeadingTrailingSpaces : String
  checkAndTrimSpaces : String → String × Bool
  terraformDeserializeEAs : String → Except CalleeError EA
  generateInternalId : internalResourceId
  newInternalResourceIdFromString : String → internalResourceId
  mergeEAs : EA → EA → EA → Except CalleeError EA
  CreatePTRRecord : List Call → String → CreatePTRRecordArgs → Except CalleeError RecordPTR
  GetDNSView : List Call → String → String → Except CalleeError DNSView
  GetPTRRecordByRef : List Call → String → String → Except CalleeError RecordPTR
  UpdatePTRRecord : List Call → String → UpdatePTRRecordArgs → Except CalleeError RecordPTR
  DeletePTRRecord : List Call → String → String → Except CalleeError String
  searchObjectByRefOrInternalId : List Call → String → ResourceData →
    Except CalleeError FoundObject
  omitEAs : EA → EA → EA
  terraformSerializeEAs : EA → Except CalleeError String
  isNotFoundError : CalleeError → Bool

/-- Run-time panics of the Go code. -/
inductive Panic
  | nilDereference
  | typeAssertion
  deriving DecidableEq, Repr

/-- How a resource function ended. -/
inductive Outcome
  | ok
  | error (e : Error)
  | panic (p : Panic)
  deriving DecidableEq, Repr

/-- The end of a run: outcome, resource data, object-manager calls made (oldest first). -/
structure Result where
  out : Outcome
  d : ResourceData
  calls : List Call

/-- The conversion `uint32(n)` of a Go `int`. -/
def uint32 (n : Int) : Nat := (n % 4294967296).toNat

/-- Error text of the check on a manually set internal ID. -/
def errInternalIdSet : String :=
  "the value of 'internal_id' field must not be set manually"

/-- Error text for a record with no address source. -/
def errNoSource : String :=
  "'ip_addr' or 'cidr' are mandatory in reverse mapping zone " ++
    "and 'record_name' is mandatory in forward mapping zone"

/-- Error text for a record with several address sources. -/
def errManySources : String :=
  "only one of 'ip_addr', 'cidr' and 'record_name' must be defined"

/-- Error text for a negative TTL other than `ttlUndef`. -/
def errTtl : String := "TTL value must be 0 or higher"

/-- The tenant ID read from the extensible attributes:
`if tempVal, ok := extAttrs[eaNameForTenantId]; ok { tenantID = tempVal.(string) }`.
`none` is the panic of the type assertion on a value that is not a string. -/
def tenantIdOf (E : Env) (extAttrs : EA) : Option String :=
  match extAttrs.get E.eaNameForTenantId with
  | none => some ""
  | some (.str s) => some s
  | some _ => none

/-- The address of a record: `*rec.Ipv4Addr` when it is not empty, `*rec.Ipv6Addr` otherwise;
`none` when a nil pointer is dereferenced on the way. -/
def addrOf (rec : RecordPTR) : Option String :=
  match rec.Ipv4Addr with
  | none => none
  | some v4 =>
    if v4 ≠ "" then some v4
    else
      match rec.Ipv6Addr with
      | none => none
      | some v6 => some v6

/-- The TTL block of Create and Update (lines 177-186 and 472-481):
`if tempTTL >= 0 { useTtl = true; ttl = uint32(tempTTL) } else if tempTTL != ttlUndef { return error }`,
starting from `useTtl = false` and `ttl = 0`. The result is `(useTtl, ttl)`, or `none` for
the error return. -/
def ttlOf (E : Env) (tempTTL : Int) : Option (Bool × Nat) :=
  if tempTTL ≥ 0 then some (true, uint32 tempTTL)
  else if tempTTL ≠ E.ttlUndef then none
  else some (false, 0)

/-! ## resourcePTRRecordCreate -/

/-- Format of the error for a failed `CreatePTRRecord`. -/
def errFmtCreateFailed : String :=
  "creation of PTR-record under the DNS view '%s' failed: %s"

/-- Format of the error for a failed `GetDNSView`. -/
def errFmtDnsView : String :=
  "error while retrieving information about DNS view '%s': %s"

/-- Lines 206-245 of `resourcePTRRecordCreate`: what the function does with the record
that `CreatePTRRecord` returned. `ipAddr` is taken from the record, `ref`, `internal_id`,
`ip_addr`, `record_name`, possibly `network_view`, and `comment` are written, then the ID
is set. -/
def createSetState (E : Env) (d : ResourceData) (calls : List Call) (tenantID : String)
    (dnsViewName comment : String) (internalId : internalResourceId)
    (recordPTR : RecordPTR) : Result :=
  match addrOf recordPTR with
  | none => ⟨.panic .nilDereference, d, calls⟩
  | some ipAddr =>
    match d.Set .ref (.str recordPTR.Ref) with
    | .error e => ⟨.error (.passed e), d, calls⟩
    | .ok d1 =>
      match d1.Set .internal_id (.str internalId.String) with
      | .error e => ⟨.error (.passed e), d1, calls⟩
      | .ok d2 =>
        match d2.Set .ip_addr (.str ipAddr) with
        | .error e => ⟨.error (.passed e), d2, calls⟩
        | .ok d3 =>
          match d3.Set .record_name (.str recordPTR.Name) with
          | .error e => ⟨.error (.passed e), d3, calls⟩
          | .ok d4 =>
            if (!(d4.GetOkString .network_view).2 || (d4.GetOkString .network_view).1 = "") then
              match E.GetDNSView calls tenantID dnsViewName with
              | .error e =>
                ⟨.error (.errorf errFmtDnsView [dnsViewName, e.msg]), d4,
                  calls ++ [.GetDNSView tenantID dnsViewName]⟩
              | .ok dnsViewObj =>
                match d4.Set .network_view (.str dnsViewObj.NetworkView) with
                | .error e =>
                  ⟨.error (.passed e), d4, calls ++ [.GetDNSView tenantID dnsViewName]⟩
                | .ok d5 =>
                  match d5.Set .comment (.str comment) with
                  | .error e =>
                    ⟨.error (.passed e), d5, calls ++ [.GetDNSView tenantID dnsViewName]⟩
                  | .ok d6 =>
                    ⟨.ok, d6.SetId recordPTR.Ref, calls ++ [.GetDNSView tenantID dnsViewName]⟩
            else
              match d4.Set .comment (.str comment) with
              | .error e => ⟨.error (.passed e), d4, calls⟩
              | .ok d6 => ⟨.ok, d6.SetId recordPTR.Ref, calls⟩

/-- Lines 166-204 of `resourcePTRRecordCreate`: the check on the number of address
sources, the TTL block and the call of `CreatePTRRecord`; the state is then written by
`createSetState`. -/
def createCall (E : Env) (d : ResourceData) (networkView dnsViewName ptrdname recordName
    cidr ipAddr comment : String) (extAttrs : EA) (internalId : internalResourceId)
    (tenantID : String) (ipAddrSrcCounter : Nat) : Result :=
  if ipAddrSrcCounter = 0 then
    ⟨.error (.errorf errNoSource []), d, []⟩
  else if ipAddrSrcCounter ≠ 1 then
    ⟨.error (.errorf errManySources []), d, []⟩
  else
    let tempTTL := d.GetInt .ttl
    match ttlOf E tempTTL with
    | none => ⟨.error (.errorf errTtl []), d, []⟩
    | some (useTtl, ttl) =>
      let args : CreatePTRRecordArgs :=
        ⟨networkView, dnsViewName, ptrdname, recordName, cidr, ipAddr, useTtl, ttl, comment,
          extAttrs⟩
      match E.CreatePTRRecord [] tenantID args with
      | .error e =>
        ⟨.error (.errorf errFmtCreateFailed [dnsViewName, e.msg]), d,
          [.CreatePTRRecord tenantID args]⟩
      | .ok recordPTR =>
        createSetState E d [.CreatePTRRecord tenantID args] tenantID dnsViewName comment
          internalId recordPTR

/-- The function `resourcePTRRecordCreate(d, m)`: lines 100-164 (the checks on
`internal_id` and on the spaces, the count of the address sources, the extensible
attributes with the new internal ID, the tenant ID), continued by `createCall`. -/
def resourcePTRRecordCreate (E : Env) (d : ResourceData) : Result :=
  if d.GetString .internal_id ≠ "" then
    ⟨.error (.errorf errInternalIdSet []), d, []⟩
  else
    let nv := E.checkAndTrimSpaces (d.GetString .network_view)
    if nv.2 then
      ⟨.error (.errorf E.errMsgFormatLeadingTrailingSpaces ["network_view"]), d, []⟩
    else
      let networkView := if nv.1 = "" then E.defaultNetView else nv.1
      let ipAddrSrcCounter0 : Nat := 0
      let ci := E.checkAndTrimSpaces (d.GetString .cidr)
      if ci.2 then
        ⟨.error (.errorf E.errMsgFormatLeadingTrailingSpaces ["cidr"]), d, []⟩
      else
        let cidr := ci.1
        let ipAddrSrcCounter1 := if cidr ≠ "" then ipAddrSrcCounter0 + 1 else ipAddrSrcCounter0
        let ip := E.checkAndTrimSpaces (d.GetString .ip_addr)
        if ip.2 then
          ⟨.error (.errorf E.errMsgFormatLeadingTrailingSpaces ["ip_addr"]), d, []⟩
        else
          let ipAddr := ip.1
          let ipAddrSrcCounter2 :=
            if ipAddr ≠ "" then ipAddrSrcCounter1 + 1 else ipAddrSrcCounter1
          let dv := E.checkAndTrimSpaces (d.GetString .dns_view)
          if dv.2 then
            ⟨.error (.errorf E.errMsgFormatLeadingTrailingSpaces ["dns_view"]), d, []⟩
          else
            let dnsViewName := dv.1
            let pn := E.checkAndTrimSpaces (d.GetString .ptrdname)
            if pn.2 then
              ⟨.error (.errorf E.errMsgFormatLeadingTrailingSpaces ["ptrdname"]), d, []⟩
            else
              let ptrdname := pn.1
              let rn := E.checkAndTrimSpaces (d.GetString .record_name)
              if rn.2 then
                ⟨.error (.errorf E.errMsgFormatLeadingTrailingSpaces ["record_name"]), d, []⟩
              else
                let recordName := rn.1
                let ipAddrSrcCounter :=
                  if recordName ≠ "" then ipAddrSrcCounter2 + 1 else ipAddrSrcCounter2
                let comment := d.GetString .comment
                let extAttrJSON := d.GetString .ext_attrs
                match E.terraformDeserializeEAs extAttrJSON with
                | .error e => ⟨.error (.passed e), d, []⟩
                | .ok extAttrs0 =>
                  let internalId := E.generateInternalId
                  let extAttrs := extAttrs0.set E.eaNameForInternalId (.str internalId.String)
                  match tenantIdOf E extAttrs with
                  | none => ⟨.panic .typeAssertion, d, []⟩
                  | some tenantID =>
                    createCall E d networkView dnsViewName ptrdname recordName cidr ipAddr
                      comment extAttrs internalId tenantID ipAddrSrcCounter

/-! ## resourcePTRRecordUpdate -/

/-- A run of the body of `resourcePTRRecordUpdate`, with the value of the local variable
`updateSuccessful` at its end. -/
structure UpdateRun where
  res : Result
  updateSuccessful : Bool

/-- Error texts of the checks on the fields that must not change. -/
def errChangeInternalId : String := "changing the value of 'internal_id' field is not allowed"

/-- Error text for a changed network view. -/
def errChangeNetworkView : String := "changing the value of 'network_view' field is not allowed"

/-- Error text for a changed DNS view. -/
def errChangeDnsView : String := "changing the value of 'dns_view' field is not allowed"

/-- Format of the error for a failed first `GetPTRRecordByRef`. -/
def errFmtGetFailed : String := "getting PTR-record with ID '%s' failed: %s"

/-- Format of the error for a failed second `GetPTRRecordByRef`. -/
def errFmtReadFailed : String := "failed to read PTR Record for update operation: %w"

/-- Format of the error for a failed `UpdatePTRRecord`. -/
def errFmtUpdateFailed : String :=
  "update operaiton failed for the PTR-record with ID '%s' under the DNS view '%s': %s"

/-- The statement `_ = d.Set(key, value)`: the error of `Set` is dropped. -/
def ResourceData.SetIgnoringError (d : ResourceData) (k : Attr) (v : Val) : ResourceData :=
  match d.Set k v with
  | .ok d1 => d1
  | .error _ => d

/-- The body of the deferred function of `resourcePTRRecordUpdate` (lines 359-377): the
nine attributes are set to the first component of their `GetChange`. -/
def revertState (d : ResourceData) : ResourceData :=
  let prevNetView := (d.GetChangeString .network_view).1
  let prevDNSView := (d.GetChangeString .dns_view).1
  let prevPtrDName := (d.GetChangeString .ptrdname).1
  let prevName := (d.GetChangeString .record_name).1
  let prevIPAddr := (d.GetChangeString .ip_addr).1
  let prevCIDR := (d.GetChangeString .cidr).1
  let prevTTL := (d.GetChangeInt .ttl).1
  let prevComment := (d.GetChangeString .comment).1
  let prevEa := (d.GetChangeString .ext_attrs).1
  let d1 := d.SetIgnoringError .network_view (.str prevNetView)
  let d2 := d1.SetIgnoringError .dns_view (.str prevDNSView)
  let d3 := d2.SetIgnoringError .ptrdname (.str prevPtrDName)
  let d4 := d3.SetIgnoringError .record_name (.str prevName)
  let d5 := d4.SetIgnoringError .ip_addr (.str prevIPAddr)
  let d6 := d5.SetIgnoringError .cidr (.str prevCIDR)
  let d7 := d6.SetIgnoringError .ttl (.int prevTTL)
  let d8 := d7.SetIgnoringError .comment (.str prevComment)
  d8.SetIgnoringError .ext_attrs (.str prevEa)

/-- Lines 527-551 of `resourcePTRRecordUpdate`, run after `updateSuccessful = true`: the ID
is set, then `ref`, `internal_id`, `ip_addr` and `record_name` are written. -/
def updateSetState (d : ResourceData) (calls : List Call) (newInternalId : internalResourceId)
    (recordPTRUpdated : RecordPTR) : UpdateRun :=
  let d0 := d.SetId recordPTRUpdated.Ref
  match addrOf recordPTRUpdated with
  | none => ⟨⟨.panic .nilDereference, d0, calls⟩, true⟩
  | some ipAddr =>
    match d0.Set .ref (.str recordPTRUpdated.Ref) with
    | .error e => ⟨⟨.error (.passed e), d0, calls⟩, true⟩
    | .ok d1 =>
      match d1.Set .internal_id (.str newInternalId.String) with
      | .error e => ⟨⟨.error (.passed e), d1, calls⟩, true⟩
      | .ok d2 =>
        match d2.Set .ip_addr (.str ipAddr) with
        | .error e => ⟨⟨.error (.passed e), d2, calls⟩, true⟩
        | .ok d3 =>
          match d3.Set .record_name (.str recordPTRUpdated.Name) with
          | .error e => ⟨⟨.error (.passed e), d3, calls⟩, true⟩
          | .ok d4 => ⟨⟨.ok, d4, calls⟩, true⟩

/-- Lines 503-526 of `resourcePTRRecordUpdate`: the record is read, the internal ID is put
into the new extensible attributes, these are merged with the ones of the record, and
`UpdatePTRRecord` is called. `calls` are the calls made before. -/
def updateCall (E : Env) (d : ResourceData) (calls : List Call) (tenantID : String)
    (networkView ptrdname dnsView recordName cidr ipAddr : String) (useTtl : Bool) (ttl : Nat)
    (comment : String) (newExtAttrs0 oldExtAttrs : EA) : UpdateRun :=
  match E.GetPTRRecordByRef calls tenantID d.Id with
  | .error e =>
    ⟨⟨.error (.errorf errFmtReadFailed [e.msg]), d,
      calls ++ [.GetPTRRecordByRef tenantID d.Id]⟩, false⟩
  | .ok ptrrec =>
    let calls1 := calls ++ [.GetPTRRecordByRef tenantID d.Id]
    let internalId0 := d.GetString .internal_id
    let internalId := if internalId0 = "" then E.generateInternalId.String else internalId0
    let newInternalId := E.newInternalResourceIdFromString internalId
    let newExtAttrs1 := newExtAttrs0.set E.eaNameForInternalId (.str newInternalId.String)
    let calls2 := calls1 ++ [.mergeEAs ptrrec.Ea newExtAttrs1 oldExtAttrs]
    match E.mergeEAs ptrrec.Ea newExtAttrs1 oldExtAttrs with
    | .error e => ⟨⟨.error (.passed e), d, calls2⟩, false⟩
    | .ok newExtAttrs =>
      let args : UpdatePTRRecordArgs :=
        ⟨d.Id, networkView, ptrdname, recordName, cidr, ipAddr, useTtl, ttl, comment,
          newExtAttrs⟩
      match E.UpdatePTRRecord calls2 tenantID args with
      | .error e =>
        ⟨⟨.error (.errorf errFmtUpdateFailed [d.Id, dnsView, e.msg]), d,
          calls2 ++ [.UpdatePTRRecord tenantID args]⟩, false⟩
      | .ok recordPTRUpdated =>
        updateSetState d (calls2 ++ [.UpdatePTRRecord tenantID args]) newInternalId
          recordPTRUpdated

/-- Lines 453-501 of `resourcePTRRecordUpdate`: the extensible attributes, the tenant
ID, the TTL block and, when neither `cidr` nor `ipAddr` is left, the read of the current
address of the record; continued by `updateCall`. The test `len(*ipv4) > 0` is written
on the number of characters, which is positive exactly when the number of bytes is. -/
def updatePrepare (E : Env) (d : ResourceData)
    (networkView ptrdname dnsView recordName cidr ipAddr : String) : UpdateRun :=
  let comment := d.GetString .comment
  let oldExtAttrsJSON := (d.GetChangeString .ext_attrs).1
  let newExtAttrsJSON := (d.GetChangeString .ext_attrs).2
  match E.terraformDeserializeEAs newExtAttrsJSON with
  | .error e => ⟨⟨.error (.passed e), d, []⟩, false⟩
  | .ok newExtAttrs0 =>
    match E.terraformDeserializeEAs oldExtAttrsJSON with
    | .error e => ⟨⟨.error (.passed e), d, []⟩, false⟩
    | .ok oldExtAttrs =>
      match tenantIdOf E newExtAttrs0 with
      | none => ⟨⟨.panic .typeAssertion, d, []⟩, false⟩
      | some tenantID =>
        let tempTTL := d.GetInt .ttl
        match ttlOf E tempTTL with
        | none => ⟨⟨.error (.errorf errTtl []), d, []⟩, false⟩
        | some (useTtl, ttl) =>
          if cidr = "" ∧ ipAddr = "" then
            match E.GetPTRRecordByRef [] tenantID d.Id with
            | .error e =>
              ⟨⟨.error (.errorf errFmtGetFailed [d.Id, e.msg]), d,
                [.GetPTRRecordByRef tenantID d.Id]⟩, false⟩
            | .ok recordPTR =>
              match recordPTR.Ipv4Addr with
              | none =>
                ⟨⟨.panic .nilDereference, d, [.GetPTRRecordByRef tenantID d.Id]⟩, false⟩
              | some ipv4 =>
                if ipv4.length > 0 then
                  updateCall E d [.GetPTRRecordByRef tenantID d.Id] tenantID networkView
                    ptrdname dnsView recordName cidr ipv4 useTtl ttl comment newExtAttrs0
                    oldExtAttrs
                else
                  match recordPTR.Ipv6Addr with
                  | none =>
                    ⟨⟨.panic .nilDereference, d, [.GetPTRRecordByRef tenantID d.Id]⟩, false⟩
                  | some ipv6 =>
                    updateCall E d [.GetPTRRecordByRef tenantID d.Id] tenantID networkView
                      ptrdname dnsView recordName cidr ipv6 useTtl ttl comment newExtAttrs0
                      oldExtAttrs
          else
            updateCall E d [] tenantID networkView ptrdname dnsView recordName cidr ipAddr
              useTtl ttl comment newExtAttrs0 oldExtAttrs

/-- Lines 444-451 of `resourcePTRRecordUpdate`: the two checks on the counters of the
address sources; continued by `updatePrepare`. -/
def updateSourceCheck (E : Env) (d : ResourceData)
    (networkView ptrdname dnsView recordName cidr ipAddr : String)
    (ipAddrSrcCounter ipAddrSrcChangesCounter : Nat) : UpdateRun :=
  if ipAddrSrcCounter = 0 then
    ⟨⟨.error (.errorf errNoSource []), d, []⟩, false⟩
  else if ipAddrSrcChangesCounter > 1 then
    ⟨⟨.error (.errorf errManySources []), d, []⟩, false⟩
  else
    updatePrepare E d networkView ptrdname dnsView recordName cidr ipAddr

/-- The body of `resourcePTRRecordUpdate` without the deferred function: lines 381-442
(the checks on the fields that must not change and on the spaces, the counters of the
address sources and the values of `recordName`, `ipAddr` and `cidr` to use), continued by
`updateSourceCheck`. -/
def resourcePTRRecordUpdateBody (E : Env) (d : ResourceData) : UpdateRun :=
  if d.HasChange .internal_id then
    ⟨⟨.error (.errorf errChangeInternalId []), d, []⟩, false⟩
  else if d.HasChange .network_view then
    ⟨⟨.error (.errorf errChangeNetworkView []), d, []⟩, false⟩
  else if d.HasChange .dns_view then
    ⟨⟨.error (.errorf errChangeDnsView []), d, []⟩, false⟩
  else
    let networkView := d.GetString .network_view
    let ptrdname := d.GetString .ptrdname
    let dnsView := d.GetString .dns_view
    let ipAddrSrcChangesCounter0 : Nat := 0
    let ipAddrSrcCounter0 : Nat := 0
    let rn := E.checkAndTrimSpaces (d.GetString .record_name)
    if rn.2 then
      ⟨⟨.error (.errorf E.errMsgFormatLeadingTrailingSpaces ["record_name"]), d, []⟩, false⟩
    else
      let recordName0 := rn.1
      let ipAddrSrcCounter1 :=
        if recordName0 ≠ "" then ipAddrSrcCounter0 + 1 else ipAddrSrcCounter0
      let ipAddrSrcChangesCounter1 :=
        if d.HasChange .record_name ∧ recordName0 ≠ "" then ipAddrSrcChangesCounter0 + 1
        else ipAddrSrcChangesCounter0
      let ip := E.checkAndTrimSpaces (d.GetString .ip_addr)
      if ip.2 then
        ⟨⟨.error (.errorf E.errMsgFormatLeadingTrailingSpaces ["ip_addr"]), d, []⟩, false⟩
      else
        let ipAddr0 := ip.1
        let ipAddrSrcCounter2 :=
          if ipAddr0 ≠ "" then ipAddrSrcCounter1 + 1 else ipAddrSrcCounter1
        let recordName1 := if d.HasChange .ip_addr ∧ ipAddr0 ≠ "" then "" else recordName0
        let ipAddrSrcChangesCounter2 :=
          if d.HasChange .ip_addr ∧ ipAddr0 ≠ "" then ipAddrSrcChangesCounter1 + 1
          else ipAddrSrcChangesCounter1
        let ci := E.checkAndTrimSpaces (d.GetString .cidr)
        if ci.2 then
          ⟨⟨.error (.errorf E.errMsgFormatLeadingTrailingSpaces ["cidr"]), d, []⟩, false⟩
        else
          let cidr0 := ci.1
          let ipAddrSrcCounter := if cidr0 ≠ "" then ipAddrSrcCounter2 + 1 else ipAddrSrcCounter2
          let cidr := if !d.HasChange .cidr then "" else cidr0
          let recordName := if d.HasChange .cidr ∧ cidr0 ≠ "" then "" else recordName1
          let ipAddr := if d.HasChange .cidr ∧ cidr0 ≠ "" then "" else ipAddr0
          let ipAddrSrcChangesCounter :=
            if d.HasChange .cidr ∧ cidr0 ≠ "" then ipAddrSrcChangesCounter2 + 1
            else ipAddrSrcChangesCounter2
          updateSourceCheck E d networkView ptrdname dnsView recordName cidr ipAddr
            ipAddrSrcCounter ipAddrSrcChangesCounter

/-- The function `resourcePTRRecordUpdate(d, m)`: the body, then the deferred function,
which reverts the state unless `updateSuccessful` was set. The deferred function also
runs when the body panics. -/
def resourcePTRRecordUpdate (E : Env) (d : ResourceData) : Result :=
  let run := resourcePTRRecordUpdateBody E d
  if !run.updateSuccessful then
    { run.res with d := revertState run.res.d }
  else
    run.res

/-! ## resourcePTRRecordGet -/

/-- Format of the error for a failed search that is not a not-found error. -/
def errFmtCannotFind : String :=
  "cannot find appropriate object on NIOS side for resource with ID '%s': %s;"

/-- Lines 308-349 of `resourcePTRRecordGet`: `comment`, `dns_view`, `ref` and `ptrdname`
are written, the address is taken from the record, `ip_addr` and `record_name` are
written, then the ID is set. -/
def readSetRest (d : ResourceData) (calls : List Call) (obj : RecordPTR) : Result :=
  match d.Set .comment (.str obj.Comment) with
  | .error e => ⟨.error (.passed e), d, calls⟩
  | .ok d1 =>
    match d1.Set .dns_view (.str obj.View) with
    | .error e => ⟨.error (.passed e), d1, calls⟩
    | .ok d2 =>
      match d2.Set .ref (.str obj.Ref) with
      | .error e => ⟨.error (.passed e), d2, calls⟩
      | .ok d3 =>
        match d3.Set .ptrdname (.str obj.PtrdName) with
        | .error e => ⟨.error (.passed e), d3, calls⟩
        | .ok d4 =>
          match addrOf obj with
          | none => ⟨.panic .nilDereference, d4, calls⟩
          | some ipAddr =>
            match d4.Set .ip_addr (.str ipAddr) with
            | .error e => ⟨.error (.passed e), d4, calls⟩
            | .ok d5 =>
              match d5.Set .record_name (.str obj.Name) with
              | .error e => ⟨.error (.passed e), d5, calls⟩
              | .ok d6 => ⟨.ok, d6.SetId obj.Ref, calls⟩

/-- Lines 284-306 of `resourcePTRRecordGet`, for a decoded record `obj` (a non-nil pointer):
the TTL is computed and written, the internal ID is deleted from the attributes of the
record, and what `omitEAs` leaves is written to `ext_attrs` when it is not empty;
continued by `readSetRest`. The statement `if !*obj.UseTtl` dereferences `obj.UseTtl`. -/
def readSetState (E : Env) (d : ResourceData) (calls : List Call) (extAttrs : EA)
    (obj : RecordPTR) : Result :=
  let ttl0 : Int :=
    match obj.Ttl with
    | some t => (t : Int)
    | none => 0
  match obj.UseTtl with
  | none => ⟨.panic .nilDereference, d, calls⟩
  | some useTtl =>
    let ttl : Int := if !useTtl then E.ttlUndef else ttl0
    match d.Set .ttl (.int ttl) with
    | .error e => ⟨.error (.passed e), d, calls⟩
    | .ok d1 =>
      let ea := EA.delete obj.Ea E.eaNameForInternalId
      let omittedEAs := E.omitEAs ea extAttrs
      if omittedEAs ≠ [] then
        match E.terraformSerializeEAs omittedEAs with
        | .error e => ⟨.error (.passed e), d1, calls⟩
        | .ok eaJSON =>
          match d1.Set .ext_attrs (.str eaJSON) with
          | .error e => ⟨.error (.passed e), d1, calls⟩
          | .ok d2 => readSetRest d2 calls obj
      else
        readSetRest d1 calls obj

/-- Format of the error for a record that failed to decode. -/
def errFmtReadDecode : String := "getting PTR-record with ID '%s' failed: %s"

/-- The function `resourcePTRRecordGet(d, m)`: lines 248-282 (the deserialization of
`ext_attrs`, the search, the decoding of what was found), continued by `readSetState`.
After the decoding, `obj` is a pointer: the test `err != nil && obj.Ref != ""` reads
`obj.Ref` when `err` is not nil, and line 284 reads `obj.Ttl` in every other case, so a
nil `obj` panics on both ways. -/
def resourcePTRRecordGet (E : Env) (d : ResourceData) : Result :=
  let extAttrJSON := d.GetString .ext_attrs
  match E.terraformDeserializeEAs extAttrJSON with
  | .error e => ⟨.error (.passed e), d, []⟩
  | .ok extAttrs =>
    match E.searchObjectByRefOrInternalId [] "PTR" d with
    | .error e =>
      if !e.notFound then
        ⟨.error (.newNotFound errFmtCannotFind [d.Id, e.msg]), d,
          [.searchObjectByRefOrInternalId "PTR"]⟩
      else
        ⟨.ok, d.SetId "", [.searchObjectByRefOrInternalId "PTR"]⟩
    | .ok rec =>
      match rec.decoded with
      | none => ⟨.panic .nilDereference, d, [.searchObjectByRefOrInternalId "PTR"]⟩
      | some obj =>
        match rec.decodeErr with
        | some err =>
          if obj.Ref ≠ "" then
            ⟨.error (.errorf errFmtReadDecode [d.Id, err.msg]), d,
              [.searchObjectByRefOrInternalId "PTR"]⟩
          else
            readSetState E d [.searchObjectByRefOrInternalId "PTR"] extAttrs obj
        | none => readSetState E d [.searchObjectByRefOrInternalId "PTR"] extAttrs obj

/-! ## resourcePTRRecordDelete -/

/-- Format of the error for a found object that failed to decode. -/
def errFmtDeleteDecode : String := "getting PTR Record with ID: %s failed: %w"

/-- Format of the error for a failed `DeletePTRRecord`. -/
def errFmtDeleteFailed : String :=
  "deletion of PTR-record with ID '%s'under the DNS view '%s' failed: %s"

/-- The function `resourcePTRRecordDelete(d, m)`. Here `obj` is a struct, not a pointer:
it starts as the zero value and holds what the found object decodes to. -/
def resourcePTRRecordDelete (E : Env) (d : ResourceData) : Result :=
  let dnsView := d.GetString .dns_view
  let extAttrJSON := d.GetString .ext_attrs
  match E.terraformDeserializeEAs extAttrJSON with
  | .error e => ⟨.error (.passed e), d, []⟩
  | .ok extAttrs =>
    match tenantIdOf E extAttrs with
    | none => ⟨.panic .typeAssertion, d, []⟩
    | some tenantID =>
      match E.searchObjectByRefOrInternalId [] "PTR" d with
      | .error e =>
        if !e.notFound then
          ⟨.error (.newNotFound errFmtCannotFind [d.Id, e.msg]), d,
            [.searchObjectByRefOrInternalId "PTR"]⟩
        else
          ⟨.ok, d.SetId "", [.searchObjectByRefOrInternalId "PTR"]⟩
      | .ok ptrrec =>
        match ptrrec.decodeErr with
        | some err =>
          ⟨.error (.errorf errFmtDeleteDecode [d.Id, err.msg]), d,
            [.searchObjectByRefOrInternalId "PTR"]⟩
        | none =>
          let obj := ptrrec.decoded.getD zeroRecordPTR
          match E.DeletePTRRecord [.searchObjectByRefOrInternalId "PTR"] tenantID obj.Ref with
          | .error e =>
            let d1 := if E.isNotFoundError e then d.SetId "" else d
            ⟨.error (.errorf errFmtDeleteFailed [d1.Id, dnsView, e.msg]), d1,
              [.searchObjectByRefOrInternalId "PTR", .DeletePTRRecord tenantID obj.Ref]⟩
          | .ok _ =>
            ⟨.ok, d,
              [.searchObjectByRefOrInternalId "PTR", .DeletePTRRecord tenantID obj.Ref]⟩

/-! ## infoblox_dtc_pool: creation -/

/-- A `monitors` block of the resource `infoblox_dtc_pool`. -/
structure DtcMonitor where
  monitor_name : String
  monitor_type : String
  deriving DecidableEq, Repr

/-- The fields of an `infoblox_dtc_pool` configuration that the first steps of the
acceptance test set or leave out; `none` is a field the configuration does not define. -/
structure DtcPoolConfig where
  name : String
  comment : String
  lb_preferred_method : String
  lb_preferred_topology : Option String
  lb_dynamic_ratio_preferred : Option String
  monitors : List DtcMonitor
  deriving DecidableEq, Repr

/-- The end of the creation of a pool: the error, if any, and the pools created on the
appliance. -/
structure DtcPoolResult where
  err : Option String
  created : List DtcPoolConfig
  deriving DecidableEq, Repr

/-- The text of `regexMissingMonitors` in the acceptance test. -/
def regexMissingMonitors : String :=
  "lb_dynamic_ratio_preferred cannot be set when no monitors are defined"

/-- The text of `regexMissingLbPreferredTopology` in the acceptance test. -/
def regexMissingLbPreferredTopology : String :=
  "preferred topology cannot be nil when preferred load balancing method is set to TOPOLOGY"

/-- An error text matches a pattern without special characters when the pattern occurs
in it. -/
def errorMatches (pattern msg : String) : Prop :=
  ∃ before after : String, msg = before ++ pattern ++ after

/-- Modelled from the spec: the creation of an `infoblox_dtc_pool` resource. The file
`resource_infoblox_dtc_pool.go` is not among the sources; this follows what its
acceptance test `TestAccResourceDtcPool` expects. A pool whose `lb_preferred_method` is
"DYNAMIC_RATIO" and which defines neither monitors nor `lb_dynamic_ratio_preferred` is
refused with the text of `regexMissingMonitors`; a pool whose `lb_preferred_method` is
"TOPOLOGY" and which defines no `lb_preferred_topology` is refused with the text of
`regexMissingLbPreferredTopology`; in both cases nothing is created. Every other pool is
handed to the appliance, `createOnNios`, which answers with an error or creates it. -/
def resourceDtcPoolCreate (createOnNios : DtcPoolConfig → Option String) (c : DtcPoolConfig) :
    DtcPoolResult :=
  if c.lb_preferred_method = "DYNAMIC_RATIO" ∧ c.monitors = [] ∧
      c.lb_dynamic_ratio_preferred = none then
    ⟨some regexMissingMonitors, []⟩
  else if c.lb_preferred_method = "TOPOLOGY" ∧ c.lb_preferred_topology = none then
    ⟨some regexMissingLbPreferredTopology, []⟩
  else
    match createOnNios c with
    | some e => ⟨some e, []⟩
    | none => ⟨none, [c]⟩

/-! ## Vocabulary of the properties -/

/-- The fields on which `resourcePTRRecordCreate` runs `checkAndTrimSpaces`, with the name
each has in the error, in the order network_view, cidr, ip_addr, dns_view, ptrdname,
record_name. -/
def createTrimChecks : List (Attr × String) :=
  [(.network_view, "network_view"), (.cidr, "cidr"), (.ip_addr, "ip_addr"),
   (.dns_view, "dns_view"), (.ptrdname, "ptrdname"), (.record_name, "record_name")]

/-- The fields on which `resourcePTRRecordUpdate` runs `checkAndTrimSpaces`. -/
def updateTrimChecks : List (Attr × String) :=
  [(.record_name, "record_name"), (.ip_addr, "ip_addr"), (.cidr, "cidr")]

/-- Name of the first field of the list for which `checkAndTrimSpaces` reports leading or
trailing spaces in the configured value, if there is one. -/
def firstTrimmed (E : Env) (d : ResourceData) (fields : List (Attr × String)) : Option String :=
  (fields.find? (fun f => (E.checkAndTrimSpaces (d.GetString f.1)).2)).map (fun f => f.2)

/-- The fields `resourcePTRRecordUpdate` does not allow to change, with their names, in the
order internal_id, network_view, dns_view. -/
def immutableFields : List (Attr × String) :=
  [(.internal_id, "internal_id"), (.network_view, "network_view"), (.dns_view, "dns_view")]

/-- Name of the first changed field of the list, if there is one. -/
def firstChanged (d : ResourceData) (fields : List (Attr × String)) : Option String :=
  (fields.find? (fun f => d.HasChange f.1)).map (fun f => f.2)

/-- Number of non-empty values among `cidr`, `ip_addr` and `record_name`. -/
def sourceCount (d : ResourceData) : Nat :=
  ([Attr.cidr, Attr.ip_addr, Attr.record_name].filter (fun k => d.GetString k ≠ "")).length

/-- Number of the fields `record_name`, `ip_addr`, `cidr` that are both changed and
non-empty. -/
def changedSourceCount (d : ResourceData) : Nat :=
  ([Attr.record_name, Attr.ip_addr, Attr.cidr].filter
    (fun k => d.HasChange k ∧ d.GetString k ≠ "")).length

/-- Whether `checkAndTrimSpaces` hands back its argument whenever it reports that nothing
was trimmed. -/
def TrimContract (E : Env) : Prop :=
  ∀ s : String, (E.checkAndTrimSpaces s).2 = false → (E.checkAndTrimSpaces s).1 = s

/-! ## A concrete environment and concrete configurations -/

/-- Removes the spaces at both ends of a list of characters. -/
def trimChars (cs : List Char) : List Char :=
  ((cs.dropWhile (fun c => c = ' ')).reverse.dropWhile (fun c => c = ' ')).reverse

/-- A `checkAndTrimSpaces` that trims spaces and reports whether the string changed. -/
def sampleTrim (s : String) : String × Bool :=
  (String.mk (trimChars s.data), decide (String.mk (trimChars s.data) ≠ s))

/-- A `terraformDeserializeEAs` that knows three documents: the empty string, an object
with a numeric tenant ID, and an object with a string attribute and a user-supplied
internal ID. -/
def sampleDeserialize (s : String) : Except CalleeError EA :=
  if s = "" then .ok []
  else if s = "\x7b\"Tenant ID\": 5\x7d" then .ok [("Tenant ID", .num 5)]
  else if s = "\x7b\"Site\": \"Paris\", \"Terraform Internal ID\": \"mine\"\x7d" then
    .ok [("Site", .str "Paris"), ("Terraform Internal ID", .str "mine")]
  else .error ⟨"cannot process 'ext_attrs' field", false⟩

/-- The record a sample appliance creates for the given arguments. -/
def sampleCreated (a : CreatePTRRecordArgs) : RecordPTR :=
  { Ref := "record:ptr/ZG5zLmJpbmRfcHRy:1.0.0.10.in-addr.arpa/default"
    Name := if a.recordName = "" then "1.0.0.10.in-addr.arpa" else a.recordName
    Ipv4Addr := some (if a.ipAddr = "" then "10.0.0.1" else a.ipAddr)
    Ipv6Addr := some ""
    PtrdName := a.ptrdname
    View := a.dnsView
    Comment := a.comment
    Ttl := some a.ttl
    UseTtl := some a.useTtl
    Ea := a.eas }

/-- The record a sample appliance holds under a reference. -/
def sampleStored (ref : String) : RecordPTR :=
  { Ref := ref
    Name := "1.0.0.10.in-addr.arpa"
    Ipv4Addr := some "10.0.0.1"
    Ipv6Addr := some ""
    PtrdName := "host.example.com"
    View := "default"
    Comment := ""
    Ttl := some 0
    UseTtl := some false
    Ea := [] }

/-- The record a sample appliance returns from an update. -/
def sampleUpdated (a : UpdatePTRRecordArgs) : RecordPTR :=
  { Ref := a.ref
    Name := if a.recordName = "" then "1.0.0.10.in-addr.arpa" else a.recordName
    Ipv4Addr := some (if a.ipAddr = "" then "10.0.0.7" else a.ipAddr)
    Ipv6Addr := some ""
    PtrdName := a.ptrdname
    View := "default"
    Comment := a.comment
    Ttl := some a.ttl
    UseTtl := some a.useTtl
    Ea := a.eas }

/-- A sample environment: an appliance on which every call succeeds. -/
def sampleEnv : Env where
  defaultNetView := "default"
  ttlUndef := -2147483648
  eaNameForInternalId := "Terraform Internal ID"
  eaNameForTenantId := "Tenant ID"
  errMsgFormatLeadingTrailingSpaces :=
    "leading or trailing whitespace is not allowed in field: '%s'"
  checkAndTrimSpaces := sampleTrim
  terraformDeserializeEAs := sampleDeserialize
  generateInternalId := ⟨"8a3c2f7e-5d41-4b6a-9c0e-2f1d3b4a5c6d"⟩
  newInternalResourceIdFromString := fun s => ⟨s⟩
  mergeEAs := fun _ newEAs _ => .ok newEAs
  CreatePTRRecord := fun _ _ a => .ok (sampleCreated a)
  GetDNSView := fun _ _ _ => .ok ⟨"default"⟩
  GetPTRRecordByRef := fun _ _ ref => .ok (sampleStored ref)
  UpdatePTRRecord := fun _ _ a => .ok (sampleUpdated a)
  DeletePTRRecord := fun _ _ ref => .ok ref
  searchObjectByRefOrInternalId := fun _ _ d => .ok ⟨some (sampleStored d.id), none⟩
  omitEAs := fun niosEAs _ => niosEAs
  terraformSerializeEAs := fun _ => .ok "\x7b\x7d"
  isNotFoundError := fun e => e.notFound

/-- The sample environment with an appliance that refuses every update. -/
def failingUpdateEnv : Env :=
  { sampleEnv with UpdatePTRRecord := fun _ _ _ => .error ⟨"IB.Data.Conflict", false⟩ }

/-- String attributes of a sample configuration: the given values for `cidr`, `ip_addr`,
`record_name`, `ext_attrs` and `internal_id`, fixed values for the views and `ptrdname`. -/
def sampleStrings (cidr ipAddr recordName extAttrs internalId : String) : Attr → String
  | .cidr => cidr
  | .ip_addr => ipAddr
  | .record_name => recordName
  | .ext_attrs => extAttrs
  | .internal_id => internalId
  | .network_view => "default"
  | .dns_view => "default"
  | .ptrdname => "host.example.com"
  | .comment => "managed by terraform"
  | .ref => ""
  | .ttl => ""

/-- Resource data of a create: no prior state, the given planned values, nothing written,
no ID. -/
def newResource (strs : Attr → String) (ttl : Int) : ResourceData :=
  { oldStr := fun _ => ""
    oldInt := fun _ => 0
    newStr := strs
    newInt := fun _ => ttl
    writes := []
    id := "" }

/-- Resource data of an update of the record with the given reference. -/
def changedResource (ref : String) (oldStrs newStrs : Attr → String) (oldTtl newTtl : Int) :
    ResourceData :=
  { oldStr := oldStrs
    oldInt := fun _ => oldTtl
    newStr := newStrs
    newInt := fun _ => newTtl
    writes := []
    id := ref }

/-- A create with `ip_addr` as the only address source and the given TTL. -/
def createWithIp (ttl : Int) : ResourceData :=
  newResource (sampleStrings "" "10.0.0.1" "" "" "") ttl

/-- A create with no address source whose `ext_attrs` hold a numeric tenant ID. -/
def createNumericTenant : ResourceData :=
  newResource (sampleStrings "" "" "" "\x7b\"Tenant ID\": 5\x7d" "") 300

/-- A create whose `ext_attrs` hold a user-supplied value under the internal-ID key. -/
def createWithUserEAs : ResourceData :=
  newResource
    (sampleStrings "" "10.0.0.1" ""
      "\x7b\"Site\": \"Paris\", \"Terraform Internal ID\": \"mine\"\x7d" "") 300

/-- A create with a manually set `internal_id`. -/
def createManualId : ResourceData :=
  newResource (sampleStrings "" "10.0.0.1" "" "" "my-own-id") 300

/-- A create whose `cidr` and `ip_addr` have spaces around. -/
def createSpaces : ResourceData :=
  newResource (sampleStrings " 10.0.0.0/24" "10.0.0.1 " "" "" "") 300

/-- The reference of the record the sample updates work on. -/
def sampleRef : String := "record:ptr/ZG5zLmJpbmRfcHRy:1.0.0.10.in-addr.arpa/default"

/-- An update that changes `network_view` and `dns_view`. -/
def updateViews : ResourceData :=
  changedResource sampleRef
    (fun k => if k = .network_view ∨ k = .dns_view then "other"
      else sampleStrings "10.0.0.0/24" "10.0.0.1" "" "" "id-1" k)
    (sampleStrings "10.0.0.0/24" "10.0.0.1" "" "" "id-1") 300 300

/-- An update that changes only `ptrdname`, with `cidr` and `ip_addr` both set. -/
def updatePtrdname : ResourceData :=
  changedResource sampleRef
    (fun k => if k = .ptrdname then "old.example.com"
      else sampleStrings "10.0.0.0/24" "10.0.0.1" "" "" "id-1" k)
    (sampleStrings "10.0.0.0/24" "10.0.0.1" "" "" "id-1") 300 600

/-- A create with `cidr` as the only address source: the address is allocated by NIOS. -/
def createWithCidr : ResourceData :=
  newResource (sampleStrings "10.0.0.0/24" "" "" "" "") 300

/-- The arguments `resourcePTRRecordCreate` hands to `CreatePTRRecord` for
`createWithUserEAs` in the sample environment. -/
def createWithUserEAsArgs : CreatePTRRecordArgs :=
  { networkView := "default"
    dnsView := "default"
    ptrdname := "host.example.com"
    recordName := ""
    cidr := ""
    ipAddr := "10.0.0.1"
    useTtl := true
    ttl := 300
    comment := "managed by terraform"
    eas := [("Terraform Internal ID", .str "8a3c2f7e-5d41-4b6a-9c0e-2f1d3b4a5c6d"),
      ("Site", .str "Paris")] }

/-- What every run of the part of `resourcePTRRecordUpdate` after the check on the address
sources has in common, for the resource data `d` at its start and the values `rn` and `ci`
of the variables `recordName` and `cidr`: without `updateSuccessful` the resource data is
untouched; an error is returned only without `updateSuccessful`; the error is neither of
the two errors on the address sources; an `UpdatePTRRecord` call gets `rn` and `ci`. -/
def UpdateRun.afterSourceCheck (d : ResourceData) (rn ci : String) (run : UpdateRun) : Prop :=
  (run.updateSuccessful = false → run.res.d = d) ∧
    (∀ e, run.res.out = .error e → run.updateSuccessful = false) ∧
    run.res.out ≠ .error (.errorf errNoSource []) ∧
    run.res.out ≠ .error (.errorf errManySources []) ∧
    (∀ t a, Call.UpdatePTRRecord t a ∈ run.res.calls → a.recordName = rn ∧ a.cidr = ci)

/-- The arguments `resourcePTRRecordUpdate` hands to `UpdatePTRRecord` for `updatePtrdname`
in the sample environment. -/
def updatePtrdnameArgs : UpdatePTRRecordArgs :=
  { ref := sampleRef
    netview := "default"
    ptrdname := "host.example.com"
    recordName := ""
    cidr := ""
    ipAddr := "10.0.0.1"
    useTtl := true
    ttl := 600
    comment := "managed by terraform"
    eas := [("Terraform Internal ID", .str "id-1")] }

/-- A create with a manually set `internal_id` whose `cidr` has a leading space. -/
def createManualIdSpaces : ResourceData :=
  newResource (sampleStrings " 10.0.0.0/24" "" "" "" "my-own-id") 300

/-- The sample environment with a search that finds the given object. -/
def foundEnv (found : FoundObject) : Env :=
  { sampleEnv with searchObjectByRefOrInternalId := fun _ _ _ => .ok found }

/-- The sample environment with a search that fails with the given error. -/
def searchFailsEnv (e : CalleeError) : Env :=
  { sampleEnv with searchObjectByRefOrInternalId := fun _ _ _ => .error e }

/-- Resource data of a resource that exists in the state and has no pending change. -/
def storedResource : ResourceData :=
  changedResource sampleRef (sampleStrings "" "10.0.0.1" "1.0.0.10.in-addr.arpa" "" "id-1")
    (sampleStrings "" "10.0.0.1" "1.0.0.10.in-addr.arpa" "" "id-1") 300 300

/-- A found record without the field `use_ttl`. -/
def recordWithoutUseTtl : RecordPTR :=
  { sampleStored sampleRef with UseTtl := none }

/-- A found record without the field `ipv4addr`. -/
def recordWithoutIpv4 : RecordPTR :=
  { sampleStored sampleRef with Ipv4Addr := none }

/-- The error of a decoding that failed. -/
def sampleDecodeError : CalleeError :=
  ⟨"json: cannot unmarshal string into Go value of type ibclient.RecordPTR", false⟩

/-- The arguments `resourcePTRRecordCreate` hands to `CreatePTRRecord` for
`createWithIp 4294967296` in the sample environment. -/
def createBigTtlArgs : CreatePTRRecordArgs :=
  { networkView := "default"
    dnsView := "default"
    ptrdname := "host.example.com"
    recordName := ""
    cidr := ""
    ipAddr := "10.0.0.1"
    useTtl := true
    ttl := 0
    comment := "managed by terraform"
    eas := [("Terraform Internal ID", .str "8a3c2f7e-5d41-4b6a-9c0e-2f1d3b4a5c6d")] }

/-- The sample environment with an appliance that refuses every creation. -/
def failingCreateEnv : Env :=
  { sampleEnv with CreatePTRRecord := fun _ _ _ => .error ⟨"IB.Data.Conflict", false⟩ }

/-- The pool of the first step of `TestAccResourceDtcPool`. -/
def poolDynamicRatioOnly : DtcPoolConfig :=
  { name := "dtc_pool"
    comment := "pool creation"
    lb_preferred_method := "DYNAMIC_RATIO"
    lb_preferred_topology := none
    lb_dynamic_ratio_preferred := none
    monitors := [] }

/-- The pool of the second step of `TestAccResourceDtcPool`. -/
def poolTopologyOnly : DtcPoolConfig :=
  { name := "dtc_pool"
    comment := "pool creation"
    lb_preferred_method := "TOPOLOGY"
    lb_preferred_topology := none
    lb_dynamic_ratio_preferred := none
    monitors := [] }

/-- The pool of the third step of `TestAccResourceDtcPool`. -/
def poolRoundRobin : DtcPoolConfig :=
  { name := "dtc_pool34"
    comment := "pool creation"
    lb_preferred_method := "ROUND_ROBIN"
    lb_preferred_topology := none
    lb_dynamic_ratio_preferred := none
    monitors := [] }

/-- An appliance that creates every pool it is handed. -/
def acceptingNios : DtcPoolConfig → Option String := fun _ => none

/-- The string form of the internal ID that `resourcePTRRecordUpdate` works with (lines
508-514): made by `newInternalResourceIdFromString` from the attribute `internal_id`, or
from a newly generated ID when that attribute is empty. -/
def updateInternalIdString (E : Env) (d : ResourceData) : String :=
  (E.newInternalResourceIdFromString
    (if d.GetString .internal_id = "" then E.generateInternalId.String
      else d.GetString .internal_id)).String

/-- What every run of the part of `resourcePTRRecordUpdate` from line 453 on has in
common, for the resource data `d` at its start and the values `ci` and `ip` of the
variables `cidr` and `ipAddr` at line 453. An `UpdatePTRRecord` call gets `ip` as its
address unless `ci` and `ip` are both empty, and then it gets the address of the record
that the first `GetPTRRecordByRef` returned. The map handed to `mergeEAs` as the new
attributes holds the internal ID. A nil return leaves the internal ID in `internal_id`.
When the first `GetPTRRecordByRef` fails, an error is returned and `UpdatePTRRecord` is
not called. -/
def UpdateRun.prepared (E : Env) (d : ResourceData) (ci ip : String) (run : UpdateRun) : Prop :=
  (∀ t a, Call.UpdatePTRRecord t a ∈ run.res.calls →
      (¬ (ci = "" ∧ ip = "") → a.ipAddr = ip) ∧
      (ci = "" ∧ ip = "" → ∃ rec v4, E.GetPTRRecordByRef [] t d.Id = .ok rec ∧
        rec.Ipv4Addr = some v4 ∧ (v4 ≠ "" → a.ipAddr = v4) ∧
        (v4 = "" → rec.Ipv6Addr = some a.ipAddr))) ∧
    (∀ n m o, Call.mergeEAs n m o ∈ run.res.calls →
      m.get E.eaNameForInternalId = some (.str (updateInternalIdString E d))) ∧
    (run.res.out = .ok → run.res.d.GetString .internal_id = updateInternalIdString E d) ∧
    (∀ t r e, Call.GetPTRRecordByRef t r ∈ run.res.calls →
      E.GetPTRRecordByRef [] t d.Id = .error e →
      (∃ err, run.res.out = .error err) ∧ ∀ x ∈ run.res.calls, x.isUpdatePTRRecord = false)

/-- An update that changes only `record_name`, with neither `cidr` nor `ip_addr` set. -/
def updateRecordName : ResourceData :=
  changedResource sampleRef
    (sampleStrings "" "" "old.0.0.10.in-addr.arpa" "" "id-1")
    (sampleStrings "" "" "1.0.0.10.in-addr.arpa" "" "id-1") 300 300

/-- The arguments `resourcePTRRecordUpdate` hands to `UpdatePTRRecord` for
`updateRecordName` in the sample environment. -/
def updateRecordNameArgs : UpdatePTRRecordArgs :=
  { ref := sampleRef
    netview := "default"
    ptrdname := "host.example.com"
    recordName := "1.0.0.10.in-addr.arpa"
    cidr := ""
    ipAddr := "10.0.0.1"
    useTtl := true
    ttl := 300
    comment := "managed by terraform"
    eas := [("Terraform Internal ID", .str "id-1")] }

/-- An update that changes `cidr` to a new network, with `ip_addr` and `record_name` set
and unchanged. -/
def updateCidr : ResourceData :=
  changedResource sampleRef
    (sampleStrings "10.0.0.0/24" "10.0.0.1" "1.0.0.10.in-addr.arpa" "" "id-1")
    (sampleStrings "10.0.1.0/24" "10.0.0.1" "1.0.0.10.in-addr.arpa" "" "id-1") 300 300

/-- The arguments `resourcePTRRecordUpdate` hands to `UpdatePTRRecord` for `updateCidr` in
the sample environment. -/
def updateCidrArgs : UpdatePTRRecordArgs :=
  { ref := sampleRef
    netview := "default"
    ptrdname := "host.example.com"
    recordName := ""
    cidr := "10.0.1.0/24"
    ipAddr := ""
    useTtl := true
    ttl := 300
    comment := "managed by terraform"
    eas := [("Terraform Internal ID", .str "id-1")] }

/-- The sample environment with an appliance on which no record can be read. -/
def failingFetchEnv : Env :=
  { sampleEnv with GetPTRRecordByRef := fun _ _ _ => .error ⟨"not found", true⟩ }

/-! ## Lemmas on the resource data and the attribute maps -/

theorem set_str_eq (d : ResourceData) (k : Attr) (s : String)
    (h : schemaType k = .TypeString) :
    d.Set k (.str s) = .ok { d with writes := (k, .str s) :: d.writes } := by
  simp [ResourceData.Set, h, Val.type]

theorem EA.get_delete (m : EA) (k a : String) :
    (EA.delete m k).get a = if a = k then none else m.get a := by
  induction m with
  | nil => simp [EA.delete, EA.get]
  | cons p rest ih =>
    obtain ⟨k1, v1⟩ := p
    by_cases hk : k1 = k
    · by_cases ha : a = k
      · subst hk ha
        simpa [EA.delete] using ih
      · have hne : ¬ k1 = a := fun h => ha (h.symm.trans hk)
        have hne2 : ¬ k = a := fun h => ha h.symm
        simp [EA.delete, EA.get, hk, ih, ha, hne2]
    · by_cases ha : a = k
      · subst ha
        simpa [EA.delete, EA.get, hk] using ih
      · simp [EA.delete, EA.get, hk, ih, ha]

theorem EA.get_set (m : EA) (k a : String) (v : EAValue) :
    (EA.set m k v).get a = if a = k then some v else m.get a := by
  by_cases ha : a = k
  · simp [EA.set, EA.get, ha]
  · have hne : ¬ k = a := fun h => ha h.symm
    simp [EA.set, EA.get, ha, hne, EA.get_delete]

/-- The sample `checkAndTrimSpaces` keeps the trim contract. -/
theorem sampleEnv_trimContract : TrimContract sampleEnv := by
  intro s h
  simp only [sampleEnv, sampleTrim, decide_eq_false_iff_not, not_not] at h
  exact h

/-- The address `addrOf` yields: the IPv4 address when it is not empty, else the IPv6 one. -/
theorem addrOf_eq_some (rec : RecordPTR) (x : String) (h : addrOf rec = some x) :
    ∃ v4, rec.Ipv4Addr = some v4 ∧ (v4 ≠ "" → x = v4) ∧
      (v4 = "" → rec.Ipv6Addr = some x) := by
  unfold addrOf at h
  cases h4 : rec.Ipv4Addr with
  | none => simp [h4] at h
  | some v4 =>
    refine ⟨v4, rfl, fun hv => ?_, fun hv => ?_⟩
    · simp [h4, hv] at h
      exact h.symm
    · cases h6 : rec.Ipv6Addr with
      | none => simp [h4, hv, h6] at h
      | some v6 =>
        simp [h4, hv, h6] at h
        rw [h]

/-! ## resourcePTRRecordCreate: validation -/

/-- C4. If `internal_id` is a non-empty string, `resourcePTRRecordCreate` returns the error
"the value of 'internal_id' field must not be set manually", whatever the other fields
are, makes no object-manager call (so `CreatePTRRecord` is not called) and leaves the
resource data as it was (no attribute written, ID untouched). -/
theorem create_rejects_manual_internal_id (E : Env) (d : ResourceData)
    (h : d.GetString .internal_id ≠ "") :
    (resourcePTRRecordCreate E d).out
        = .error (.errorf "the value of 'internal_id' field must not be set manually" []) ∧
      (resourcePTRRecordCreate E d).calls = [] ∧
      (resourcePTRRecordCreate E d).d = d := by
  simp [resourcePTRRecordCreate, h, errInternalIdSet]

/-- Witness of C4: a configuration with `internal_id = "my-own-id"`. -/
theorem create_rejects_manual_internal_id_witness :
    createManualId.GetString .internal_id = "my-own-id" ∧
      (resourcePTRRecordCreate sampleEnv createManualId).out
        = .error (.errorf "the value of 'internal_id' field must not be set manually" []) ∧
      (resourcePTRRecordCreate sampleEnv createManualId).calls = [] ∧
      (resourcePTRRecordCreate sampleEnv createManualId).d = createManualId :=
  ⟨by decide, create_rejects_manual_internal_id sampleEnv createManualId (by decide)⟩

/-- C3, as amended. When `internal_id` is empty (that check comes first): if
`checkAndTrimSpaces` reports leading or trailing spaces for one of network_view, cidr,
ip_addr, dns_view, ptrdname, record_name, then `resourcePTRRecordCreate` returns the error
made from `errMsgFormatLeadingTrailingSpaces` and the name of the first such field in
that order; no object-manager call is made (so `CreatePTRRecord` is not called) and the
resource data is left as it was. -/
theorem create_rejects_spaces (E : Env) (d : ResourceData) (name : String)
    (h0 : d.GetString .internal_id = "")
    (h : firstTrimmed E d createTrimChecks = some name) :
    (resourcePTRRecordCreate E d).out
        = .error (.errorf E.errMsgFormatLeadingTrailingSpaces [name]) ∧
      (resourcePTRRecordCreate E d).calls = [] ∧
      (resourcePTRRecordCreate E d).d = d := by
  unfold resourcePTRRecordCreate
  simp only [firstTrimmed, createTrimChecks, List.find?] at h
  cases h1 : (E.checkAndTrimSpaces (d.GetString .network_view)).2 <;> simp [h1] at h
  · cases h2 : (E.checkAndTrimSpaces (d.GetString .cidr)).2 <;> simp [h2] at h
    · cases h3 : (E.checkAndTrimSpaces (d.GetString .ip_addr)).2 <;> simp [h3] at h
      · cases h4 : (E.checkAndTrimSpaces (d.GetString .dns_view)).2 <;> simp [h4] at h
        · cases h5 : (E.checkAndTrimSpaces (d.GetString .ptrdname)).2 <;> simp [h5] at h
          · cases h6 : (E.checkAndTrimSpaces (d.GetString .record_name)).2 <;> simp [h6] at h
            · simp [h0, h1, h2, h3, h4, h5, h6, h]
          · simp [h0, h1, h2, h3, h4, h5, h]
        · simp [h0, h1, h2, h3, h4, h]
      · simp [h0, h1, h2, h3, h]
    · simp [h0, h1, h2, h]
  · simp [h0, h1, h]

/-- Witness of C3 as amended: `internal_id` is empty, `cidr` and `ip_addr` both have spaces
around; the error names `cidr`. -/
theorem create_rejects_spaces_witness :
    createSpaces.GetString .internal_id = "" ∧
      (sampleEnv.checkAndTrimSpaces (createSpaces.GetString .cidr)).2 = true ∧
      (sampleEnv.checkAndTrimSpaces (createSpaces.GetString .ip_addr)).2 = true ∧
      (resourcePTRRecordCreate sampleEnv createSpaces).out
        = .error (.errorf sampleEnv.errMsgFormatLeadingTrailingSpaces ["cidr"]) ∧
      (resourcePTRRecordCreate sampleEnv createSpaces).calls = [] ∧
      (resourcePTRRecordCreate sampleEnv createSpaces).d = createSpaces :=
  ⟨by decide, by decide, by decide,
    create_rejects_spaces sampleEnv createSpaces "cidr" (by decide) (by decide)⟩

/-- C3, counterexample to the claim as stated: `cidr` has a leading space, so
`checkAndTrimSpaces` reports it, but `internal_id` is set, and `resourcePTRRecordCreate`
returns the error on `internal_id`, not the error on the spaces of `cidr`. -/
theorem create_manual_id_before_spaces :
    (sampleEnv.checkAndTrimSpaces (createManualIdSpaces.GetString .cidr)).2 = true ∧
      firstTrimmed sampleEnv createManualIdSpaces createTrimChecks = some "cidr" ∧
      (resourcePTRRecordCreate sampleEnv createManualIdSpaces).out
        = .error (.errorf "the value of 'internal_id' field must not be set manually" []) ∧
      (resourcePTRRecordCreate sampleEnv createManualIdSpaces).out
        ≠ .error (.errorf sampleEnv.errMsgFormatLeadingTrailingSpaces ["cidr"]) :=
  ⟨by decide, by decide, by decide, by decide⟩

/-- What `createSetState` does: it makes no further `CreatePTRRecord` call, returns no
error made without arguments, and when it returns nil the ID and the attributes `ref`,
`internal_id`, `record_name` and `ip_addr` come from the record and the internal ID. -/
theorem createSetState_spec (E : Env) (d : ResourceData) (calls : List Call)
    (t dv c : String) (id : internalResourceId) (rec : RecordPTR) :
    (∃ rest, (createSetState E d calls t dv c id rec).calls = calls ++ rest ∧
        ∀ x ∈ rest, x.isCreatePTRRecord = false) ∧
      (∀ f, (createSetState E d calls t dv c id rec).out ≠ .error (.errorf f [])) ∧
      ((createSetState E d calls t dv c id rec).out = .ok →
        (createSetState E d calls t dv c id rec).d.Id = rec.Ref ∧
        (createSetState E d calls t dv c id rec).d.GetString .ref = rec.Ref ∧
        (createSetState E d calls t dv c id rec).d.GetString .internal_id = id.String ∧
        (createSetState E d calls t dv c id rec).d.GetString .record_name = rec.Name ∧
        addrOf rec = some ((createSetState E d calls t dv c id rec).d.GetString .ip_addr)) := by
  unfold createSetState
  cases ha : addrOf rec with
  | none => simp
  | some ip =>
    simp only [set_str_eq, schemaType]
    split
    · cases hv : E.GetDNSView calls t dv with
      | error e => simp [Call.isCreatePTRRecord]
      | ok v =>
        simp [Call.isCreatePTRRecord, ResourceData.GetString, lastWrite, ResourceData.SetId,
          ResourceData.Id]
    · simp [ResourceData.GetString, lastWrite, ResourceData.SetId, ResourceData.Id]

/-- What `createCall` does: either it returns before any call, with an error and the
resource data untouched, or the source counter is 1, the TTL block yields `(useTtl, ttl)`,
the first call is `CreatePTRRecord` with the arguments of the function, no other
`CreatePTRRecord` follows, and a nil return means the call succeeded and the state was
written from its record. -/
theorem createCall_spec (E : Env) (d : ResourceData) (nv dv pn rn ci ip c : String) (ea : EA)
    (id : internalResourceId) (t : String) (n : Nat) :
    ((createCall E d nv dv pn rn ci ip c ea id t n).calls = [] ∧
        (∃ e, (createCall E d nv dv pn rn ci ip c ea id t n).out = .error e) ∧
        (createCall E d nv dv pn rn ci ip c ea id t n).d = d ∧
        (n ≠ 1 ∨ ttlOf E (d.GetInt .ttl) = none)) ∨
      (∃ useTtl ttl rest, n = 1 ∧ ttlOf E (d.GetInt .ttl) = some (useTtl, ttl) ∧
        (createCall E d nv dv pn rn ci ip c ea id t n).calls
          = .CreatePTRRecord t ⟨nv, dv, pn, rn, ci, ip, useTtl, ttl, c, ea⟩ :: rest ∧
        (∀ x ∈ rest, x.isCreatePTRRecord = false) ∧
        ((createCall E d nv dv pn rn ci ip c ea id t n).out = .ok →
          ∃ rec, E.CreatePTRRecord [] t ⟨nv, dv, pn, rn, ci, ip, useTtl, ttl, c, ea⟩ = .ok rec ∧
            (createCall E d nv dv pn rn ci ip c ea id t n).d.Id = rec.Ref ∧
            (createCall E d nv dv pn rn ci ip c ea id t n).d.GetString .ref = rec.Ref ∧
            (createCall E d nv dv pn rn ci ip c ea id t n).d.GetString .internal_id
              = id.String ∧
            (createCall E d nv dv pn rn ci ip c ea id t n).d.GetString .record_name
              = rec.Name ∧
            addrOf rec
              = some ((createCall E d nv dv pn rn ci ip c ea id t n).d.GetString .ip_addr))) := by
  unfold createCall
  by_cases h0 : n = 0
  · simp [h0]
  · by_cases h1 : n = 1
    · cases httl : ttlOf E (d.GetInt .ttl) with
      | none => simp [h1, httl]
      | some p =>
        obtain ⟨useTtl, ttl⟩ := p
        right
        refine ⟨useTtl, ttl, ?_⟩
        simp only [h1, httl]
        cases hc : E.CreatePTRRecord [] t ⟨nv, dv, pn, rn, ci, ip, useTtl, ttl, c, ea⟩ with
        | error e => exact ⟨[], by simp⟩
        | ok rec =>
          obtain ⟨⟨rest, hrest, hno⟩, _, hok⟩ :=
            createSetState_spec E d
              [.CreatePTRRecord t ⟨nv, dv, pn, rn, ci, ip, useTtl, ttl, c, ea⟩] t dv c id rec
          refine ⟨rest, ?_⟩
          simp only [one_ne_zero, if_false, ne_eq, not_true_eq_false]
          exact ⟨trivial, trivial, by simpa using hrest, hno, fun h => ⟨rec, rfl, hok h⟩⟩
    · simp [h0, h1]

/-- The two ways `resourcePTRRecordCreate` goes: either it returns before `createCall`,
without a call, without returning nil and with the resource data untouched, or all
checks up to the tenant ID pass and it continues with `createCall` on the trimmed values,
the deserialized attributes with the new internal ID, and the source counter. -/
theorem create_cases (E : Env) (d : ResourceData) :
    ((resourcePTRRecordCreate E d).calls = [] ∧ (resourcePTRRecordCreate E d).out ≠ .ok ∧
        (resourcePTRRecordCreate E d).d = d ∧
        (d.GetString .internal_id ≠ "" ∨ (∃ name, firstTrimmed E d createTrimChecks = some name) ∨
          (∃ e, E.terraformDeserializeEAs (d.GetString .ext_attrs) = .error e) ∨
          (∃ m, E.terraformDeserializeEAs (d.GetString .ext_attrs) = .ok m ∧
            tenantIdOf E (m.set E.eaNameForInternalId (.str E.generateInternalId.String))
              = none))) ∨
      (∃ m t, d.GetString .internal_id = "" ∧ firstTrimmed E d createTrimChecks = none ∧
        E.terraformDeserializeEAs (d.GetString .ext_attrs) = .ok m ∧
        tenantIdOf E (m.set E.eaNameForInternalId (.str E.generateInternalId.String)) = some t ∧
        resourcePTRRecordCreate E d =
          createCall E d
            (if (E.checkAndTrimSpaces (d.GetString .network_view)).1 = "" then E.defaultNetView
              else (E.checkAndTrimSpaces (d.GetString .network_view)).1)
            (E.checkAndTrimSpaces (d.GetString .dns_view)).1
            (E.checkAndTrimSpaces (d.GetString .ptrdname)).1
            (E.checkAndTrimSpaces (d.GetString .record_name)).1
            (E.checkAndTrimSpaces (d.GetString .cidr)).1
            (E.checkAndTrimSpaces (d.GetString .ip_addr)).1
            (d.GetString .comment)
            (m.set E.eaNameForInternalId (.str E.generateInternalId.String))
            E.generateInternalId t
            ((if (E.checkAndTrimSpaces (d.GetString .cidr)).1 ≠ "" then 1 else 0)
              + (if (E.checkAndTrimSpaces (d.GetString .ip_addr)).1 ≠ "" then 1 else 0)
              + (if (E.checkAndTrimSpaces (d.GetString .record_name)).1 ≠ "" then 1 else 0))) := by
  unfold resourcePTRRecordCreate
  by_cases h0 : d.GetString .internal_id = ""
  swap
  · simp [h0]
  simp only [firstTrimmed, createTrimChecks, List.find?]
  cases h1 : (E.checkAndTrimSpaces (d.GetString .network_view)).2
  swap
  · simp [h0]
  cases h2 : (E.checkAndTrimSpaces (d.GetString .cidr)).2
  swap
  · simp [h0]
  cases h3 : (E.checkAndTrimSpaces (d.GetString .ip_addr)).2
  swap
  · simp [h0]
  cases h4 : (E.checkAndTrimSpaces (d.GetString .dns_view)).2
  swap
  · simp [h0]
  cases h5 : (E.checkAndTrimSpaces (d.GetString .ptrdname)).2
  swap
  · simp [h0]
  cases h6 : (E.checkAndTrimSpaces (d.GetString .record_name)).2
  swap
  · simp [h0]
  cases hp : E.terraformDeserializeEAs (d.GetString .ext_attrs) with
  | error e => simp [h0, hp]
  | ok m =>
    cases ht : tenantIdOf E (m.set E.eaNameForInternalId (.str E.generateInternalId.String)) with
    | none => simp [h0, hp, ht]
    | some t =>
      right
      refine ⟨m, t, h0, ?_⟩
      by_cases c1 : (E.checkAndTrimSpaces (d.GetString .cidr)).1 = "" <;>
        by_cases c2 : (E.checkAndTrimSpaces (d.GetString .ip_addr)).1 = "" <;>
        by_cases c3 : (E.checkAndTrimSpaces (d.GetString .record_name)).1 = "" <;>
        simp [h0, hp, ht, c1, c2, c3]


/-- Under the checks of lines 100-164, `resourcePTRRecordCreate` is `createCall` on the
trimmed values. -/
theorem create_reach (E : Env) (d : ResourceData) (m : EA) (t : String)
    (h0 : d.GetString .internal_id = "")
    (htrim : firstTrimmed E d createTrimChecks = none)
    (hparse : E.terraformDeserializeEAs (d.GetString .ext_attrs) = .ok m)
    (htenant : tenantIdOf E (m.set E.eaNameForInternalId (.str E.generateInternalId.String))
      = some t) :
    resourcePTRRecordCreate E d =
      createCall E d
        (if (E.checkAndTrimSpaces (d.GetString .network_view)).1 = "" then E.defaultNetView
          else (E.checkAndTrimSpaces (d.GetString .network_view)).1)
        (E.checkAndTrimSpaces (d.GetString .dns_view)).1
        (E.checkAndTrimSpaces (d.GetString .ptrdname)).1
        (E.checkAndTrimSpaces (d.GetString .record_name)).1
        (E.checkAndTrimSpaces (d.GetString .cidr)).1
        (E.checkAndTrimSpaces (d.GetString .ip_addr)).1
        (d.GetString .comment)
        (m.set E.eaNameForInternalId (.str E.generateInternalId.String))
        E.generateInternalId t
        ((if (E.checkAndTrimSpaces (d.GetString .cidr)).1 ≠ "" then 1 else 0)
          + (if (E.checkAndTrimSpaces (d.GetString .ip_addr)).1 ≠ "" then 1 else 0)
          + (if (E.checkAndTrimSpaces (d.GetString .record_name)).1 ≠ "" then 1 else 0)) := by
  rcases create_cases E d with ⟨_, _, _, hbad⟩ | ⟨m1, t1, _, _, hp1, ht1, heq⟩
  · rcases hbad with hb | ⟨name, hb⟩ | ⟨e, hb⟩ | ⟨m1, hb, hb2⟩
    · exact absurd h0 hb
    · rw [htrim] at hb
      exact absurd hb (by simp)
    · rw [hparse] at hb
      exact absurd hb (by simp)
    · rw [hparse] at hb
      cases hb
      rw [htenant] at hb2
      exact absurd hb2 (by simp)
  · rw [hparse] at hp1
    cases hp1
    rw [htenant] at ht1
    cases ht1
    exact heq

/-- With the trim contract and no field reported, the source counter of
`resourcePTRRecordCreate` is the number of non-empty configured sources. -/
theorem create_counter_eq (E : Env) (d : ResourceData) (hc : TrimContract E)
    (htrim : firstTrimmed E d createTrimChecks = none) :
    ((if (E.checkAndTrimSpaces (d.GetString .cidr)).1 ≠ "" then 1 else 0)
      + (if (E.checkAndTrimSpaces (d.GetString .ip_addr)).1 ≠ "" then 1 else 0)
      + (if (E.checkAndTrimSpaces (d.GetString .record_name)).1 ≠ "" then 1 else 0))
      = sourceCount d := by
  simp only [firstTrimmed, createTrimChecks, List.find?] at htrim
  cases h1 : (E.checkAndTrimSpaces (d.GetString .network_view)).2 <;> simp [h1] at htrim
  cases h2 : (E.checkAndTrimSpaces (d.GetString .cidr)).2 <;> simp [h2] at htrim
  cases h3 : (E.checkAndTrimSpaces (d.GetString .ip_addr)).2 <;> simp [h3] at htrim
  cases h4 : (E.checkAndTrimSpaces (d.GetString .dns_view)).2 <;> simp [h4] at htrim
  cases h5 : (E.checkAndTrimSpaces (d.GetString .ptrdname)).2 <;> simp [h5] at htrim
  cases h6 : (E.checkAndTrimSpaces (d.GetString .record_name)).2 <;> simp [h6] at htrim
  rw [hc _ h2, hc _ h3, hc _ h6]
  by_cases c1 : d.GetString .cidr = "" <;> by_cases c2 : d.GetString .ip_addr = "" <;>
    by_cases c3 : d.GetString .record_name = "" <;>
    simp [sourceCount, List.filter, c1, c2, c3]

/-- With one address source, `createCall` returns neither of the two source errors. -/
theorem createCall_one (E : Env) (d : ResourceData) (nv dv pn rn ci ip c : String) (ea : EA)
    (id : internalResourceId) (t : String) :
    (createCall E d nv dv pn rn ci ip c ea id t 1).out ≠ .error (.errorf errNoSource []) ∧
      (createCall E d nv dv pn rn ci ip c ea id t 1).out
        ≠ .error (.errorf errManySources []) := by
  unfold createCall
  cases httl : ttlOf E (d.GetInt .ttl) with
  | none => simp [httl, errTtl, errNoSource, errManySources]
  | some p =>
    obtain ⟨useTtl, ttl⟩ := p
    simp only [httl]
    cases hc : E.CreatePTRRecord [] t ⟨nv, dv, pn, rn, ci, ip, useTtl, ttl, c, ea⟩ with
    | error e => simp
    | ok rec =>
      simp only [one_ne_zero, if_false, ne_eq, not_true_eq_false]
      exact ⟨(createSetState_spec E d _ t dv c id rec).2.1 _,
        (createSetState_spec E d _ t dv c id rec).2.1 _⟩

/-- The check on the address sources in `resourcePTRRecordCreate`, for a configuration
that passes everything before it: `internal_id` is empty, `checkAndTrimSpaces` reports no
field (and hands the values back unchanged), `ext_attrs` deserializes, and the tenant ID
in it, if there is one, is a string. With n the number of non-empty values among `cidr`,
`ip_addr` and `record_name`: for n = 0 the "mandatory" error is returned, for n ≥ 2 the
"only one" error, both without any call; for n = 1 neither error is returned. -/
theorem create_source_exclusivity (E : Env) (d : ResourceData) (m : EA) (t : String)
    (hc : TrimContract E)
    (h0 : d.GetString .internal_id = "")
    (htrim : firstTrimmed E d createTrimChecks = none)
    (hparse : E.terraformDeserializeEAs (d.GetString .ext_attrs) = .ok m)
    (htenant : tenantIdOf E (m.set E.eaNameForInternalId (.str E.generateInternalId.String))
      = some t) :
    (sourceCount d = 0 →
        (resourcePTRRecordCreate E d).out = .error (.errorf
          ("'ip_addr' or 'cidr' are mandatory in reverse mapping zone " ++
            "and 'record_name' is mandatory in forward mapping zone") []) ∧
        (resourcePTRRecordCreate E d).calls = []) ∧
      (2 ≤ sourceCount d →
        (resourcePTRRecordCreate E d).out = .error (.errorf
          "only one of 'ip_addr', 'cidr' and 'record_name' must be defined" []) ∧
        (resourcePTRRecordCreate E d).calls = []) ∧
      (sourceCount d = 1 →
        (resourcePTRRecordCreate E d).out ≠ .error (.errorf
          ("'ip_addr' or 'cidr' are mandatory in reverse mapping zone " ++
            "and 'record_name' is mandatory in forward mapping zone") []) ∧
        (resourcePTRRecordCreate E d).out ≠ .error (.errorf
          "only one of 'ip_addr', 'cidr' and 'record_name' must be defined" [])) := by
  rw [create_reach E d m t h0 htrim hparse htenant, create_counter_eq E d hc htrim]
  refine ⟨fun hn => ?_, fun hn => ?_, fun hn => ?_⟩
  · simp [createCall, hn, errNoSource]
  · have h1 : sourceCount d ≠ 0 := by omega
    have h2 : sourceCount d ≠ 1 := by omega
    simp [createCall, h1, h2, errManySources]
  · rw [hn]
    exact createCall_one E d _ _ _ _ _ _ _ _ _ t

/-- Witness of `create_source_exclusivity`: a configuration with `ip_addr` alone. -/
theorem create_source_exclusivity_witness :
    sourceCount (createWithIp 300) = 1 ∧
      (resourcePTRRecordCreate sampleEnv (createWithIp 300)).out ≠ .error (.errorf
        ("'ip_addr' or 'cidr' are mandatory in reverse mapping zone " ++
          "and 'record_name' is mandatory in forward mapping zone") []) ∧
      (resourcePTRRecordCreate sampleEnv (createWithIp 300)).out ≠ .error (.errorf
        "only one of 'ip_addr', 'cidr' and 'record_name' must be defined" []) :=
  ⟨by decide,
    (create_source_exclusivity sampleEnv (createWithIp 300) [] "" sampleEnv_trimContract
      (by decide) (by decide) (by rfl) (by decide)).2.2 (by decide)⟩

/-- C1. A configuration that passes the checks on `internal_id`, on the spaces and on the
parsing of `ext_attrs` and has no address source (n = 0), but whose `ext_attrs` hold a
tenant ID that is not a string: `resourcePTRRecordCreate` does not return the "mandatory"
error, it panics in the type assertion `tempVal.(string)` of line 163, before the check
on the address sources. -/
theorem create_numeric_tenant_panics :
    createNumericTenant.GetString .internal_id = "" ∧
      firstTrimmed sampleEnv createNumericTenant createTrimChecks = none ∧
      sampleEnv.terraformDeserializeEAs (createNumericTenant.GetString .ext_attrs)
        = .ok [("Tenant ID", .num 5)] ∧
      sourceCount createNumericTenant = 0 ∧
      (resourcePTRRecordCreate sampleEnv createNumericTenant).out = .panic .typeAssertion ∧
      (resourcePTRRecordCreate sampleEnv createNumericTenant).out
        ≠ .error (.errorf
          ("'ip_addr' or 'cidr' are mandatory in reverse mapping zone " ++
            "and 'record_name' is mandatory in forward mapping zone") []) :=
  ⟨by decide, by decide, by rfl, by decide, by decide, by decide⟩

/-! ## resourcePTRRecordCreate: TTL -/

/-- The conversion `uint32` keeps a value between 0 and 4294967295. -/
theorem uint32_of_inRange (v : Int) (h0 : 0 ≤ v) (h1 : v < 4294967296) :
    ((uint32 v : Nat) : Int) = v := by
  unfold uint32
  rw [Int.emod_eq_of_lt h0 h1]
  exact Int.toNat_of_nonneg h0

/-- The TTL block on its own, for a negative `ttlUndef`. -/
theorem ttlOf_spec (E : Env) (v : Int) (hu : E.ttlUndef < 0) :
    (0 ≤ v → ttlOf E v = some (true, uint32 v)) ∧
      (v = E.ttlUndef → ttlOf E v = some (false, 0)) ∧
      (v < 0 → v ≠ E.ttlUndef → ttlOf E v = none) := by
  refine ⟨fun h => ?_, fun h => ?_, fun h h2 => ?_⟩
  · simp [ttlOf, h]
  · have hneg : ¬ (0 ≤ v) := by omega
    simp [ttlOf, hneg, h]
    omega
  · have hneg : ¬ (0 ≤ v) := by omega
    simp [ttlOf, hneg, h2]

/-- The TTL handling of `resourcePTRRecordCreate`, for a configuration that passes
everything before it (the checks of lines 100-164 and exactly one address source) and a
negative `ttlUndef`. With v the configured `ttl`: if 0 ≤ v the first call is
`CreatePTRRecord` with `useTtl = true` and `ttl = uint32(v)`, which is v itself when
v < 4294967296; if v = ttlUndef the first call is `CreatePTRRecord` with `useTtl = false`
and `ttl = 0`; for any other negative v the error "TTL value must be 0 or higher" is
returned and no call is made. -/
theorem create_ttl_handling (E : Env) (d : ResourceData) (m : EA) (t : String)
    (hc : TrimContract E) (hu : E.ttlUndef < 0)
    (h0 : d.GetString .internal_id = "")
    (htrim : firstTrimmed E d createTrimChecks = none)
    (hparse : E.terraformDeserializeEAs (d.GetString .ext_attrs) = .ok m)
    (htenant : tenantIdOf E (m.set E.eaNameForInternalId (.str E.generateInternalId.String))
      = some t)
    (hone : sourceCount d = 1) :
    (0 ≤ d.GetInt .ttl → ∃ args rest,
        (resourcePTRRecordCreate E d).calls = .CreatePTRRecord t args :: rest ∧
        args.useTtl = true ∧ args.ttl = uint32 (d.GetInt .ttl) ∧
        (d.GetInt .ttl < 4294967296 → (args.ttl : Int) = d.GetInt .ttl)) ∧
      (d.GetInt .ttl = E.ttlUndef → ∃ args rest,
        (resourcePTRRecordCreate E d).calls = .CreatePTRRecord t args :: rest ∧
        args.useTtl = false ∧ args.ttl = 0) ∧
      (d.GetInt .ttl < 0 → d.GetInt .ttl ≠ E.ttlUndef →
        (resourcePTRRecordCreate E d).out = .error (.errorf "TTL value must be 0 or higher" []) ∧
        (resourcePTRRecordCreate E d).calls = []) := by
  rw [create_reach E d m t h0 htrim hparse htenant, create_counter_eq E d hc htrim, hone]
  obtain ⟨hpos, hundef, hneg⟩ := ttlOf_spec E (d.GetInt .ttl) hu
  refine ⟨fun h => ?_, fun h => ?_, fun h h2 => ?_⟩
  · rcases createCall_spec E d _ _ _ _ _ _ (d.GetString .comment)
        (m.set E.eaNameForInternalId (.str E.generateInternalId.String)) E.generateInternalId t 1
      with ⟨_, _, _, hbad⟩ | ⟨useTtl, ttl, rest, _, httl, hcalls, _, _⟩
    · rcases hbad with hb | hb
      · exact absurd rfl hb
      · rw [hpos h] at hb
        exact absurd hb (by simp)
    · rw [hpos h] at httl
      cases httl
      exact ⟨_, rest, hcalls, rfl, rfl, fun hlt => uint32_of_inRange _ h hlt⟩
  · rcases createCall_spec E d _ _ _ _ _ _ (d.GetString .comment)
        (m.set E.eaNameForInternalId (.str E.generateInternalId.String)) E.generateInternalId t 1
      with ⟨_, _, _, hbad⟩ | ⟨useTtl, ttl, rest, _, httl, hcalls, _, _⟩
    · rcases hbad with hb | hb
      · exact absurd rfl hb
      · rw [hundef h] at hb
        exact absurd hb (by simp)
    · rw [hundef h] at httl
      cases httl
      exact ⟨_, rest, hcalls, rfl, rfl⟩
  · simp [createCall, hneg h h2, errTtl]

/-- Witness of `create_ttl_handling`: `ttl = 300` with `ip_addr` as the source. -/
theorem create_ttl_handling_witness :
    (createWithIp 300).GetInt .ttl = 300 ∧
      ∃ args rest,
        (resourcePTRRecordCreate sampleEnv (createWithIp 300)).calls
          = .CreatePTRRecord "" args :: rest ∧
        args.useTtl = true ∧ args.ttl = uint32 ((createWithIp 300).GetInt .ttl) ∧
        ((createWithIp 300).GetInt .ttl < 4294967296 →
          (args.ttl : Int) = (createWithIp 300).GetInt .ttl) :=
  ⟨by decide,
    (create_ttl_handling sampleEnv (createWithIp 300) [] "" sampleEnv_trimContract
      (by decide) (by decide) (by decide) (by rfl) (by decide) (by decide)).1 (by decide)⟩

/-- C2. A configuration with `ip_addr` as its only address source and `ttl = 4294967296`,
a value of the Go type `int`: `resourcePTRRecordCreate` passes all checks and calls
`CreatePTRRecord` with `useTtl = true` and `ttl = 0`, the value of `uint32(tempTTL)`,
which is not the configured value. -/
theorem create_ttl_4294967296_wraps :
    (createWithIp 4294967296).GetInt .ttl = 4294967296 ∧
      (resourcePTRRecordCreate sampleEnv (createWithIp 4294967296)).calls.head?
        = some (.CreatePTRRecord ""
            { networkView := "default", dnsView := "default", ptrdname := "host.example.com",
              recordName := "", cidr := "", ipAddr := "10.0.0.1", useTtl := true, ttl := 0,
              comment := "managed by terraform",
              eas := [("Terraform Internal ID", .str "8a3c2f7e-5d41-4b6a-9c0e-2f1d3b4a5c6d")] }) ∧
      (resourcePTRRecordCreate sampleEnv (createWithIp 4294967296)).out = .ok ∧
      ((0 : Nat) : Int) ≠ (createWithIp 4294967296).GetInt .ttl :=
  ⟨by decide, by decide, by decide, by decide⟩

/-! ## resourcePTRRecordCreate: state after success -/

/-- C9. Whenever `resourcePTRRecordCreate` returns nil, its first call was a
`CreatePTRRecord` that succeeded (and it made no other), and for the record `rec` that
call returned: the resource ID and the attribute `ref` equal `rec.Ref`, `record_name`
equals `rec.Name`, and `ip_addr` equals the IPv4 address of `rec` if that is not empty and
its IPv6 address otherwise. This holds whatever the configuration says about `ip_addr`. -/
theorem create_result_state (E : Env) (d : ResourceData)
    (h : (resourcePTRRecordCreate E d).out = .ok) :
    ∃ t args rest rec,
      (resourcePTRRecordCreate E d).calls = .CreatePTRRecord t args :: rest ∧
      (∀ x ∈ rest, x.isCreatePTRRecord = false) ∧
      E.CreatePTRRecord [] t args = .ok rec ∧
      (resourcePTRRecordCreate E d).d.Id = rec.Ref ∧
      (resourcePTRRecordCreate E d).d.GetString .ref = rec.Ref ∧
      (resourcePTRRecordCreate E d).d.GetString .record_name = rec.Name ∧
      ∃ v4, rec.Ipv4Addr = some v4 ∧
        (v4 ≠ "" → (resourcePTRRecordCreate E d).d.GetString .ip_addr = v4) ∧
        (v4 = "" → rec.Ipv6Addr = some ((resourcePTRRecordCreate E d).d.GetString .ip_addr)) := by
  rcases create_cases E d with ⟨_, hne, _⟩ | ⟨m, t, _, _, _, _, heq⟩
  · exact absurd h hne
  · rw [heq] at h ⊢
    rcases createCall_spec E d _ _ _ _ _ _ (d.GetString .comment)
        (m.set E.eaNameForInternalId (.str E.generateInternalId.String)) E.generateInternalId t _
      with ⟨_, ⟨e, he⟩, _⟩ | ⟨useTtl, ttl, rest, _, _, hcalls, hno, hok⟩
    · rw [he] at h
      cases h
    · obtain ⟨rec, hrec, hid, href, _, hname, haddr⟩ := hok h
      exact ⟨t, _, rest, rec, hcalls, hno, hrec, hid, href, hname, addrOf_eq_some rec _ haddr⟩

/-- Witness of C9: a configuration with `cidr` and no `ip_addr`; the address allocated by
the appliance ends up in `ip_addr`. -/
theorem create_result_state_witness :
    (resourcePTRRecordCreate sampleEnv createWithCidr).out = .ok ∧
      createWithCidr.GetString .ip_addr = "" ∧
      (resourcePTRRecordCreate sampleEnv createWithCidr).d.GetString .ip_addr = "10.0.0.1" ∧
      ∃ t args rest rec,
        (resourcePTRRecordCreate sampleEnv createWithCidr).calls
          = .CreatePTRRecord t args :: rest ∧
        (∀ x ∈ rest, x.isCreatePTRRecord = false) ∧
        sampleEnv.CreatePTRRecord [] t args = .ok rec ∧
        (resourcePTRRecordCreate sampleEnv createWithCidr).d.Id = rec.Ref ∧
        (resourcePTRRecordCreate sampleEnv createWithCidr).d.GetString .ref = rec.Ref ∧
        (resourcePTRRecordCreate sampleEnv createWithCidr).d.GetString .record_name
          = rec.Name ∧
        ∃ v4, rec.Ipv4Addr = some v4 ∧
          (v4 ≠ "" → (resourcePTRRecordCreate sampleEnv createWithCidr).d.GetString .ip_addr
            = v4) ∧
          (v4 = "" → rec.Ipv6Addr
            = some ((resourcePTRRecordCreate sampleEnv createWithCidr).d.GetString .ip_addr)) :=
  ⟨by decide, by decide, by decide, create_result_state sampleEnv createWithCidr (by decide)⟩

/-! ## resourcePTRRecordCreate: internal ID -/

/-- C10. For every `CreatePTRRecord` call that `resourcePTRRecordCreate` makes, the map of
extensible attributes it passes is the map deserialized from `ext_attrs` with the key
`eaNameForInternalId` set to the string form of the generated internal ID: that key reads
as this string (also when the user supplied a value under it) and every other key reads
as in the deserialized map. When the function returns nil, the attribute `internal_id`
holds that same string. -/
theorem create_internal_id_tracking (E : Env) (d : ResourceData) (t : String)
    (args : CreatePTRRecordArgs)
    (hcall : Call.CreatePTRRecord t args ∈ (resourcePTRRecordCreate E d).calls) :
    (∃ m, E.terraformDeserializeEAs (d.GetString .ext_attrs) = .ok m ∧
        ∀ k, args.eas.get k =
          if k = E.eaNameForInternalId then some (.str E.generateInternalId.String)
          else m.get k) ∧
      ((resourcePTRRecordCreate E d).out = .ok →
        (resourcePTRRecordCreate E d).d.GetString .internal_id
          = E.generateInternalId.String) := by
  rcases create_cases E d with ⟨hnil, _, _⟩ | ⟨m, t1, _, _, hparse, _, heq⟩
  · rw [hnil] at hcall
    cases hcall
  · rw [heq] at hcall ⊢
    rcases createCall_spec E d _ _ _ _ _ _ (d.GetString .comment)
        (m.set E.eaNameForInternalId (.str E.generateInternalId.String)) E.generateInternalId t1 _
      with ⟨hnil, _, _⟩ | ⟨useTtl, ttl, rest, _, _, hcalls, hno, hok⟩
    · rw [hnil] at hcall
      cases hcall
    · rw [hcalls] at hcall
      have hargs : args.eas = m.set E.eaNameForInternalId (.str E.generateInternalId.String) := by
        rcases List.mem_cons.mp hcall with hhead | htail
        · cases hhead
          rfl
        · have := hno _ htail
          simp [Call.isCreatePTRRecord] at this
      refine ⟨⟨m, hparse, fun k => ?_⟩, fun h => ?_⟩
      · rw [hargs, EA.get_set]
      · obtain ⟨rec, _, _, _, hint, _, _⟩ := hok h
        exact hint

/-- Witness of C10: the user supplied "mine" under the internal-ID key; the call carries
the generated ID there and the attribute `Site` as it was. -/
theorem create_internal_id_tracking_witness :
    Call.CreatePTRRecord "" createWithUserEAsArgs
        ∈ (resourcePTRRecordCreate sampleEnv createWithUserEAs).calls ∧
      sampleEnv.terraformDeserializeEAs (createWithUserEAs.GetString .ext_attrs)
        = .ok [("Site", .str "Paris"), ("Terraform Internal ID", .str "mine")] ∧
      createWithUserEAsArgs.eas.get "Terraform Internal ID"
        = some (.str "8a3c2f7e-5d41-4b6a-9c0e-2f1d3b4a5c6d") ∧
      (∃ m, sampleEnv.terraformDeserializeEAs (createWithUserEAs.GetString .ext_attrs) = .ok m ∧
        ∀ k, createWithUserEAsArgs.eas.get k =
          if k = sampleEnv.eaNameForInternalId then
            some (.str sampleEnv.generateInternalId.String)
          else m.get k) ∧
      ((resourcePTRRecordCreate sampleEnv createWithUserEAs).out = .ok →
        (resourcePTRRecordCreate sampleEnv createWithUserEAs).d.GetString .internal_id
          = sampleEnv.generateInternalId.String) :=
  ⟨by decide, by rfl, by decide,
    create_internal_id_tracking sampleEnv createWithUserEAs "" createWithUserEAsArgs
      (by decide)⟩

/-! ## resourcePTRRecordUpdate: structure of a run -/

/-- What `updateSetState` does: it runs with `updateSuccessful` set, makes no call, and
ends with nil or with a nil-pointer panic, never with an error. -/
theorem updateSetState_spec (d : ResourceData) (calls : List Call) (id : internalResourceId)
    (rec : RecordPTR) :
    (updateSetState d calls id rec).updateSuccessful = true ∧
      (updateSetState d calls id rec).res.calls = calls ∧
      ((updateSetState d calls id rec).res.out = .ok ∨
        (updateSetState d calls id rec).res.out = .panic .nilDereference) := by
  unfold updateSetState
  cases ha : addrOf rec with
  | none => simp
  | some ip => simp [set_str_eq, schemaType]

/-- What `updateCall` does: a run that does not set `updateSuccessful` leaves the
resource data untouched; an error return happens only with `updateSuccessful` unset and
is never an error made without arguments; and an `UpdatePTRRecord` call it makes carries
the record name, cidr, address and TTL values handed to `updateCall`. -/
theorem updateCall_spec (E : Env) (d : ResourceData) (calls : List Call) (t nv pn dv rn ci ip :
    String) (u : Bool) (ttl : Nat) (c : String) (ne oe : EA) :
    ((updateCall E d calls t nv pn dv rn ci ip u ttl c ne oe).updateSuccessful = false →
        (updateCall E d calls t nv pn dv rn ci ip u ttl c ne oe).res.d = d) ∧
      (∀ e, (updateCall E d calls t nv pn dv rn ci ip u ttl c ne oe).res.out = .error e →
        (updateCall E d calls t nv pn dv rn ci ip u ttl c ne oe).updateSuccessful = false) ∧
      (∀ f, (updateCall E d calls t nv pn dv rn ci ip u ttl c ne oe).res.out
        ≠ .error (.errorf f [])) ∧
      (∀ t1 a, Call.UpdatePTRRecord t1 a
          ∈ (updateCall E d calls t nv pn dv rn ci ip u ttl c ne oe).res.calls →
        Call.UpdatePTRRecord t1 a ∈ calls ∨
          (a.recordName = rn ∧ a.cidr = ci ∧ a.ipAddr = ip ∧ a.useTtl = u ∧ a.ttl = ttl)) := by
  simp only [updateCall]
  cases hg : E.GetPTRRecordByRef calls t d.Id with
  | error e =>
    simp
    exact fun _ _ h => Or.inl h
  | ok ptrrec =>
    simp only []
    cases hm : E.mergeEAs ptrrec.Ea _ oe with
    | error e =>
      simp
      exact fun _ _ h => Or.inl h
    | ok merged =>
      simp only []
      cases hu : E.UpdatePTRRecord _ t ⟨d.Id, nv, pn, rn, ci, ip, u, ttl, c, merged⟩ with
      | error e =>
        simp only [reduceCtorEq, false_implies, true_implies, implies_true, ne_eq,
          Outcome.error.injEq, Error.errorf.injEq, true_and]
        refine ⟨by simp, ?_⟩
        intro t1 a hmem
        simp only [List.mem_append, List.mem_singleton, reduceCtorEq, or_false,
          Call.UpdatePTRRecord.injEq] at hmem
        rcases hmem with h | h
        · exact Or.inl h
        · right
          obtain ⟨_, rfl⟩ := h
          exact ⟨rfl, rfl, rfl, rfl, rfl⟩
      | ok recUpd =>
        simp only []
        refine ⟨fun h => ?_, fun e h => ?_, fun f h => ?_, fun t1 a hmem => ?_⟩
        · rw [(updateSetState_spec _ _ _ _).1] at h
          cases h
        · rcases (updateSetState_spec _ _ _ _).2.2 with ho | ho <;> rw [ho] at h <;> cases h
        · rcases (updateSetState_spec _ _ _ _).2.2 with ho | ho <;> rw [ho] at h <;> cases h
        · rw [(updateSetState_spec _ _ _ _).2.1] at hmem
          simp only [List.mem_append, List.mem_singleton, reduceCtorEq, or_false,
            Call.UpdatePTRRecord.injEq] at hmem
          rcases hmem with h | h
          · exact Or.inl h
          · right
            obtain ⟨_, rfl⟩ := h
            exact ⟨rfl, rfl, rfl, rfl, rfl⟩

/-- A run of `updateCall` started after calls that hold no `UpdatePTRRecord`. -/
theorem updateCall_afterSourceCheck (E : Env) (d : ResourceData) (calls : List Call)
    (t nv pn dv rn ci ip : String) (u : Bool) (ttl : Nat) (c : String) (ne oe : EA)
    (hcalls : ∀ x ∈ calls, x.isUpdatePTRRecord = false) :
    (updateCall E d calls t nv pn dv rn ci ip u ttl c ne oe).afterSourceCheck d rn ci := by
  obtain ⟨h1, h2, h3, h4⟩ := updateCall_spec E d calls t nv pn dv rn ci ip u ttl c ne oe
  refine ⟨h1, h2, h3 _, h3 _, fun t1 a hmem => ?_⟩
  rcases h4 t1 a hmem with h | h
  · have := hcalls _ h
    simp [Call.isUpdatePTRRecord] at this
  · exact ⟨h.1, h.2.1⟩

/-- A run that stops with an error or a panic before `updateSuccessful` is set, with the
resource data untouched and no `UpdatePTRRecord` among its calls. -/
theorem stopped_afterSourceCheck (d : ResourceData) (rn ci : String) (out : Outcome)
    (calls : List Call)
    (h1 : out ≠ .error (.errorf errNoSource []))
    (h2 : out ≠ .error (.errorf errManySources []))
    (hcalls : ∀ x ∈ calls, x.isUpdatePTRRecord = false) :
    UpdateRun.afterSourceCheck d rn ci ⟨⟨out, d, calls⟩, false⟩ := by
  refine ⟨fun _ => rfl, fun _ _ => rfl, h1, h2, fun t a hmem => ?_⟩
  have := hcalls _ hmem
  simp [Call.isUpdatePTRRecord] at this

/-- Every run of `updatePrepare` has the properties of `afterSourceCheck`. -/
theorem updatePrepare_afterSourceCheck (E : Env) (d : ResourceData)
    (nv pn dv rn ci ip : String) :
    (updatePrepare E d nv pn dv rn ci ip).afterSourceCheck d rn ci := by
  simp only [updatePrepare]
  cases hn : E.terraformDeserializeEAs (d.GetChangeString .ext_attrs).2 with
  | error e =>
    refine stopped_afterSourceCheck d rn ci _ _ ?_ ?_ ?_ <;> simp
  | ok newEAs =>
    simp only []
    cases ho : E.terraformDeserializeEAs (d.GetChangeString .ext_attrs).1 with
    | error e =>
      refine stopped_afterSourceCheck d rn ci _ _ ?_ ?_ ?_ <;> simp
    | ok oldEAs =>
      simp only []
      cases ht : tenantIdOf E newEAs with
      | none =>
        refine stopped_afterSourceCheck d rn ci _ _ ?_ ?_ ?_ <;> simp
      | some t =>
        simp only []
        cases httl : ttlOf E (d.GetInt .ttl) with
        | none =>
          refine stopped_afterSourceCheck d rn ci _ _ ?_ ?_ ?_ <;>
            simp [errTtl, errNoSource, errManySources]
        | some p =>
          obtain ⟨u, ttl⟩ := p
          simp only []
          split
          · cases hg : E.GetPTRRecordByRef [] t d.Id with
            | error e =>
              refine stopped_afterSourceCheck d rn ci _ _ ?_ ?_ ?_ <;>
                simp [Call.isUpdatePTRRecord]
            | ok rec =>
              simp only []
              cases h4 : rec.Ipv4Addr with
              | none =>
                refine stopped_afterSourceCheck d rn ci _ _ ?_ ?_ ?_ <;>
                  simp [Call.isUpdatePTRRecord]
              | some v4 =>
                simp only []
                split
                · exact updateCall_afterSourceCheck E d _ t nv pn dv rn ci v4 u ttl _ _ _
                    (by simp [Call.isUpdatePTRRecord])
                · cases h6 : rec.Ipv6Addr with
                  | none =>
                    refine stopped_afterSourceCheck d rn ci _ _ ?_ ?_ ?_ <;>
                      simp [Call.isUpdatePTRRecord]
                  | some v6 =>
                    exact updateCall_afterSourceCheck E d _ t nv pn dv rn ci v6 u ttl _ _ _
                      (by simp [Call.isUpdatePTRRecord])
          · exact updateCall_afterSourceCheck E d _ t nv pn dv rn ci ip u ttl _ _ _
              (by simp [Call.isUpdatePTRRecord])

/-- What every run of `updateSourceCheck` has in common: without `updateSuccessful` the
resource data is untouched; an error is returned only without `updateSuccessful`; and an
`UpdatePTRRecord` call gets the values of `recordName` and `cidr`. -/
theorem updateSourceCheck_spec (E : Env) (d : ResourceData) (nv pn dv rn ci ip : String)
    (n c : Nat) :
    ((updateSourceCheck E d nv pn dv rn ci ip n c).updateSuccessful = false →
        (updateSourceCheck E d nv pn dv rn ci ip n c).res.d = d) ∧
      (∀ e, (updateSourceCheck E d nv pn dv rn ci ip n c).res.out = .error e →
        (updateSourceCheck E d nv pn dv rn ci ip n c).updateSuccessful = false) ∧
      (∀ t a, Call.UpdatePTRRecord t a ∈ (updateSourceCheck E d nv pn dv rn ci ip n c).res.calls →
        a.recordName = rn ∧ a.cidr = ci) := by
  unfold updateSourceCheck
  by_cases h0 : n = 0
  · simp [h0]
  · by_cases h1 : c > 1
    · simp [h0, h1]
    · simp only [h0, h1, if_false]
      obtain ⟨h1, h2, _, _, h5⟩ := updatePrepare_afterSourceCheck E d nv pn dv rn ci ip
      exact ⟨h1, h2, h5⟩

/-- The outcome of `updateSourceCheck` in terms of the two counters: the "mandatory" error
exactly when the counter of sources is 0, and otherwise the "only one" error exactly when
the counter of changed sources exceeds 1. -/
theorem updateSourceCheck_out (E : Env) (d : ResourceData) (nv pn dv rn ci ip : String)
    (n c : Nat) :
    ((updateSourceCheck E d nv pn dv rn ci ip n c).res.out = .error (.errorf errNoSource [])
        ↔ n = 0) ∧
      (n ≠ 0 →
        ((updateSourceCheck E d nv pn dv rn ci ip n c).res.out
          = .error (.errorf errManySources []) ↔ 1 < c)) := by
  unfold updateSourceCheck
  obtain ⟨_, _, h3, h4, _⟩ := updatePrepare_afterSourceCheck E d nv pn dv rn ci ip
  by_cases h0 : n = 0
  · simp [h0]
  · by_cases h1 : c > 1
    · simp [h0, h1, errNoSource, errManySources]
    · simp only [h0, h1, if_false]
      exact ⟨⟨fun h => absurd h h3, False.elim⟩, fun _ => ⟨fun h => absurd h h4, False.elim⟩⟩

/-- What every run of the body of `resourcePTRRecordUpdate` has in common: without
`updateSuccessful` the resource data is untouched; an error is returned only without
`updateSuccessful`; and the `cidr` argument of an `UpdatePTRRecord` call is empty when
`cidr` has not changed. -/
theorem updateBody_spec (E : Env) (d : ResourceData) :
    ((resourcePTRRecordUpdateBody E d).updateSuccessful = false →
        (resourcePTRRecordUpdateBody E d).res.d = d) ∧
      (∀ e, (resourcePTRRecordUpdateBody E d).res.out = .error e →
        (resourcePTRRecordUpdateBody E d).updateSuccessful = false) ∧
      (∀ t a, Call.UpdatePTRRecord t a ∈ (resourcePTRRecordUpdateBody E d).res.calls →
        d.HasChange .cidr = false → a.cidr = "") := by
  simp only [resourcePTRRecordUpdateBody]
  cases c1 : d.HasChange .internal_id
  swap
  · simp
  cases c2 : d.HasChange .network_view
  swap
  · simp
  cases c3 : d.HasChange .dns_view
  swap
  · simp
  cases t1 : (E.checkAndTrimSpaces (d.GetString .record_name)).2
  swap
  · simp
  cases t2 : (E.checkAndTrimSpaces (d.GetString .ip_addr)).2
  swap
  · simp
  cases t3 : (E.checkAndTrimSpaces (d.GetString .cidr)).2
  swap
  · simp
  simp only [Bool.false_eq_true, if_false]
  refine ⟨(updateSourceCheck_spec E d _ _ _ _ _ _ _ _).1,
    (updateSourceCheck_spec E d _ _ _ _ _ _ _ _).2.1, fun t a hmem hc => ?_⟩
  rw [((updateSourceCheck_spec E d _ _ _ _ _ _ _ _).2.2 t a hmem).2]
  simp [hc]

/-- Under the checks on the fields that must not change and on the spaces, the body of
`resourcePTRRecordUpdate` is `updateSourceCheck` on the number of non-empty sources and
the number of changed non-empty sources. -/
theorem updateBody_reach (E : Env) (d : ResourceData) (hc : TrimContract E)
    (himm : firstChanged d immutableFields = none)
    (htrim : firstTrimmed E d updateTrimChecks = none) :
    resourcePTRRecordUpdateBody E d =
      updateSourceCheck E d (d.GetString .network_view) (d.GetString .ptrdname)
        (d.GetString .dns_view)
        (if d.HasChange .cidr = true ∧ d.GetString .cidr ≠ "" then ""
          else if d.HasChange .ip_addr = true ∧ d.GetString .ip_addr ≠ "" then ""
          else d.GetString .record_name)
        (if (!d.HasChange .cidr) = true then "" else d.GetString .cidr)
        (if d.HasChange .cidr = true ∧ d.GetString .cidr ≠ "" then "" else d.GetString .ip_addr)
        (sourceCount d) (changedSourceCount d) := by
  simp only [firstChanged, immutableFields, List.find?] at himm
  cases c1 : d.HasChange .internal_id <;> simp [c1] at himm
  cases c2 : d.HasChange .network_view <;> simp [c2] at himm
  cases c3 : d.HasChange .dns_view <;> simp [c3] at himm
  simp only [firstTrimmed, updateTrimChecks, List.find?] at htrim
  cases t1 : (E.checkAndTrimSpaces (d.GetString .record_name)).2 <;> simp [t1] at htrim
  cases t2 : (E.checkAndTrimSpaces (d.GetString .ip_addr)).2 <;> simp [t2] at htrim
  cases t3 : (E.checkAndTrimSpaces (d.GetString .cidr)).2 <;> simp [t3] at htrim
  simp only [resourcePTRRecordUpdateBody, c1, c2, c3, t1, t2, t3, Bool.false_eq_true, if_false,
    hc _ t1, hc _ t2, hc _ t3]
  by_cases e1 : d.GetString .record_name = "" <;> by_cases e2 : d.GetString .ip_addr = "" <;>
    by_cases e3 : d.GetString .cidr = "" <;>
    cases g1 : d.HasChange .record_name <;> cases g2 : d.HasChange .ip_addr <;>
    cases g3 : d.HasChange .cidr <;>
    simp [sourceCount, changedSourceCount, List.filter, e1, e2, e3, g1, g2, g3]

/-- The deferred function changes neither the outcome nor the calls of a run. -/
theorem update_out_calls (E : Env) (d : ResourceData) :
    (resourcePTRRecordUpdate E d).out = (resourcePTRRecordUpdateBody E d).res.out ∧
      (resourcePTRRecordUpdate E d).calls = (resourcePTRRecordUpdateBody E d).res.calls := by
  simp only [resourcePTRRecordUpdate]
  split <;> simp

/-- After the deferred function has reverted the state, each of the nine attributes reads
as the first component of its `GetChange`. -/
theorem revertState_spec (d : ResourceData) :
    (revertState d).GetString .network_view = (d.GetChangeString .network_view).1 ∧
      (revertState d).GetString .dns_view = (d.GetChangeString .dns_view).1 ∧
      (revertState d).GetString .ptrdname = (d.GetChangeString .ptrdname).1 ∧
      (revertState d).GetString .record_name = (d.GetChangeString .record_name).1 ∧
      (revertState d).GetString .ip_addr = (d.GetChangeString .ip_addr).1 ∧
      (revertState d).GetString .cidr = (d.GetChangeString .cidr).1 ∧
      (revertState d).GetInt .ttl = (d.GetChangeInt .ttl).1 ∧
      (revertState d).GetString .comment = (d.GetChangeString .comment).1 ∧
      (revertState d).GetString .ext_attrs = (d.GetChangeString .ext_attrs).1 := by
  simp [revertState, ResourceData.SetIgnoringError, ResourceData.Set, schemaType, Val.type,
    ResourceData.GetString, ResourceData.GetInt, lastWrite, ResourceData.GetChangeString,
    ResourceData.GetChangeInt]

/-! ## resourcePTRRecordUpdate: the claims -/

/-- C5. If any of `internal_id`, `network_view`, `dns_view` has changed, then
`resourcePTRRecordUpdate` returns the error "changing the value of '<field>' field is not
allowed" for the first changed field in that order, and makes no object-manager call, so
neither `GetPTRRecordByRef` nor `UpdatePTRRecord` is called. -/
theorem update_rejects_immutable_change (E : Env) (d : ResourceData) (name : String)
    (h : firstChanged d immutableFields = some name) :
    (resourcePTRRecordUpdate E d).out
        = .error (.errorf ("changing the value of '" ++ name ++ "' field is not allowed") []) ∧
      (resourcePTRRecordUpdate E d).calls = [] := by
  rw [(update_out_calls E d).1, (update_out_calls E d).2]
  simp only [firstChanged, immutableFields, List.find?] at h
  simp only [resourcePTRRecordUpdateBody]
  cases c1 : d.HasChange .internal_id <;> simp [c1] at h
  · cases c2 : d.HasChange .network_view <;> simp [c2] at h
    · cases c3 : d.HasChange .dns_view <;> simp [c3] at h
      subst h
      simp [errChangeDnsView]
    · subst h
      simp [errChangeNetworkView]
  · subst h
    simp [errChangeInternalId]

/-- Witness of C5: `network_view` and `dns_view` both changed; the error names
`network_view`. -/
theorem update_rejects_immutable_change_witness :
    updateViews.HasChange .network_view = true ∧ updateViews.HasChange .dns_view = true ∧
      (resourcePTRRecordUpdate sampleEnv updateViews).out
        = .error (.errorf
            ("changing the value of '" ++ "network_view" ++ "' field is not allowed") []) ∧
      (resourcePTRRecordUpdate sampleEnv updateViews).calls = [] :=
  ⟨by decide, by decide,
    update_rejects_immutable_change sampleEnv updateViews "network_view" (by decide)⟩

/-- C6. Whenever `resourcePTRRecordUpdate` returns an error, each of the attributes
network_view, dns_view, ptrdname, record_name, ip_addr, cidr, ttl, comment and ext_attrs
reads as its previous value, the first component of `GetChange`. -/
theorem update_reverts_on_error (E : Env) (d : ResourceData) (e : Error)
    (h : (resourcePTRRecordUpdate E d).out = .error e) :
    (resourcePTRRecordUpdate E d).d.GetString .network_view
        = (d.GetChangeString .network_view).1 ∧
      (resourcePTRRecordUpdate E d).d.GetString .dns_view = (d.GetChangeString .dns_view).1 ∧
      (resourcePTRRecordUpdate E d).d.GetString .ptrdname = (d.GetChangeString .ptrdname).1 ∧
      (resourcePTRRecordUpdate E d).d.GetString .record_name
        = (d.GetChangeString .record_name).1 ∧
      (resourcePTRRecordUpdate E d).d.GetString .ip_addr = (d.GetChangeString .ip_addr).1 ∧
      (resourcePTRRecordUpdate E d).d.GetString .cidr = (d.GetChangeString .cidr).1 ∧
      (resourcePTRRecordUpdate E d).d.GetInt .ttl = (d.GetChangeInt .ttl).1 ∧
      (resourcePTRRecordUpdate E d).d.GetString .comment = (d.GetChangeString .comment).1 ∧
      (resourcePTRRecordUpdate E d).d.GetString .ext_attrs
        = (d.GetChangeString .ext_attrs).1 := by
  rw [(update_out_calls E d).1] at h
  obtain ⟨hd, hflag, _⟩ := updateBody_spec E d
  have hf := hflag e h
  have hrun : (resourcePTRRecordUpdate E d).d = revertState d := by
    simp only [resourcePTRRecordUpdate, hf, Bool.not_false, if_true]
    rw [hd hf]
  rw [hrun]
  exact revertState_spec d

/-- Witness of C6: the appliance refuses the update of `ptrdname` and `ttl`; the error is
returned and `ptrdname` and `ttl` read as before the update. -/
theorem update_reverts_on_error_witness :
    (resourcePTRRecordUpdate failingUpdateEnv updatePtrdname).out
        = .error (.errorf errFmtUpdateFailed [sampleRef, "default", "IB.Data.Conflict"]) ∧
      (resourcePTRRecordUpdate failingUpdateEnv updatePtrdname).d.GetString .ptrdname
        = "old.example.com" ∧
      (resourcePTRRecordUpdate failingUpdateEnv updatePtrdname).d.GetInt .ttl = 300 ∧
      (resourcePTRRecordUpdate failingUpdateEnv updatePtrdname).d.GetString .network_view
        = (updatePtrdname.GetChangeString .network_view).1 ∧
      (resourcePTRRecordUpdate failingUpdateEnv updatePtrdname).d.GetString .dns_view
        = (updatePtrdname.GetChangeString .dns_view).1 ∧
      (resourcePTRRecordUpdate failingUpdateEnv updatePtrdname).d.GetString .ptrdname
        = (updatePtrdname.GetChangeString .ptrdname).1 ∧
      (resourcePTRRecordUpdate failingUpdateEnv updatePtrdname).d.GetString .record_name
        = (updatePtrdname.GetChangeString .record_name).1 ∧
      (resourcePTRRecordUpdate failingUpdateEnv updatePtrdname).d.GetString .ip_addr
        = (updatePtrdname.GetChangeString .ip_addr).1 ∧
      (resourcePTRRecordUpdate failingUpdateEnv updatePtrdname).d.GetString .cidr
        = (updatePtrdname.GetChangeString .cidr).1 ∧
      (resourcePTRRecordUpdate failingUpdateEnv updatePtrdname).d.GetInt .ttl
        = (updatePtrdname.GetChangeInt .ttl).1 ∧
      (resourcePTRRecordUpdate failingUpdateEnv updatePtrdname).d.GetString .comment
        = (updatePtrdname.GetChangeString .comment).1 ∧
      (resourcePTRRecordUpdate failingUpdateEnv updatePtrdname).d.GetString .ext_attrs
        = (updatePtrdname.GetChangeString .ext_attrs).1 :=
  ⟨by decide, by decide, by decide,
    update_reverts_on_error failingUpdateEnv updatePtrdname
      (.errorf errFmtUpdateFailed [sampleRef, "default", "IB.Data.Conflict"]) (by decide)⟩

/-- C7. For every `UpdatePTRRecord` call that `resourcePTRRecordUpdate` makes while `cidr`
is unchanged (`HasChange("cidr")` is false), the `cidr` argument of the call is the empty
string, whatever the configured `cidr` is. -/
theorem update_unchanged_cidr_is_empty (E : Env) (d : ResourceData) (t : String)
    (a : UpdatePTRRecordArgs)
    (hcall : Call.UpdatePTRRecord t a ∈ (resourcePTRRecordUpdate E d).calls)
    (hc : d.HasChange .cidr = false) :
    a.cidr = "" := by
  rw [(update_out_calls E d).2] at hcall
  exact (updateBody_spec E d).2.2 t a hcall hc

/-- Witness of C7: an update of `ptrdname` with `cidr` configured and unchanged; the call
carries an empty `cidr`. -/
theorem update_unchanged_cidr_is_empty_witness :
    Call.UpdatePTRRecord "" updatePtrdnameArgs
        ∈ (resourcePTRRecordUpdate sampleEnv updatePtrdname).calls ∧
      updatePtrdname.HasChange .cidr = false ∧
      updatePtrdname.GetString .cidr = "10.0.0.0/24" ∧
      updatePtrdnameArgs.cidr = "" :=
  ⟨by decide, by decide, by decide,
    update_unchanged_cidr_is_empty sampleEnv updatePtrdname "" updatePtrdnameArgs
      (by decide) (by decide)⟩

/-- C8. The validation of the address sources in `resourcePTRRecordUpdate`, when none of
`internal_id`, `network_view`, `dns_view` has changed and `checkAndTrimSpaces` reports
none of record_name, ip_addr, cidr (and hands the values back unchanged). With n the
number of non-empty values among record_name, ip_addr, cidr and c the number of those
fields that are both changed and non-empty: the "mandatory" error is returned iff n = 0;
when n is not 0, the "only one" error is returned iff c > 1; so with n not 0 and c at
most 1 the update passes this validation, however many sources are non-empty. -/
theorem update_source_validation (E : Env) (d : ResourceData) (hc : TrimContract E)
    (himm : firstChanged d immutableFields = none)
    (htrim : firstTrimmed E d updateTrimChecks = none) :
    ((resourcePTRRecordUpdate E d).out = .error (.errorf
          ("'ip_addr' or 'cidr' are mandatory in reverse mapping zone " ++
            "and 'record_name' is mandatory in forward mapping zone") [])
        ↔ sourceCount d = 0) ∧
      (sourceCount d ≠ 0 →
        ((resourcePTRRecordUpdate E d).out = .error (.errorf
            "only one of 'ip_addr', 'cidr' and 'record_name' must be defined" [])
          ↔ 1 < changedSourceCount d)) ∧
      (sourceCount d ≠ 0 → changedSourceCount d ≤ 1 →
        (resourcePTRRecordUpdate E d).out ≠ .error (.errorf
          ("'ip_addr' or 'cidr' are mandatory in reverse mapping zone " ++
            "and 'record_name' is mandatory in forward mapping zone") []) ∧
        (resourcePTRRecordUpdate E d).out ≠ .error (.errorf
          "only one of 'ip_addr', 'cidr' and 'record_name' must be defined" [])) := by
  rw [(update_out_calls E d).1, updateBody_reach E d hc himm htrim]
  obtain ⟨h1, h2⟩ := updateSourceCheck_out E d (d.GetString .network_view)
    (d.GetString .ptrdname) (d.GetString .dns_view)
    (if d.HasChange .cidr = true ∧ d.GetString .cidr ≠ "" then ""
      else if d.HasChange .ip_addr = true ∧ d.GetString .ip_addr ≠ "" then ""
      else d.GetString .record_name)
    (if (!d.HasChange .cidr) = true then "" else d.GetString .cidr)
    (if d.HasChange .cidr = true ∧ d.GetString .cidr ≠ "" then "" else d.GetString .ip_addr)
    (sourceCount d) (changedSourceCount d)
  refine ⟨h1, h2, fun hn hle => ⟨fun h => hn (h1.mp h), fun h => ?_⟩⟩
  have := (h2 hn).mp h
  omega

/-- Witness of C8: `cidr` and `ip_addr` are both set and neither has changed (n = 2,
c = 0); the update passes the validation and succeeds. -/
theorem update_source_validation_witness :
    sourceCount updatePtrdname = 2 ∧ changedSourceCount updatePtrdname = 0 ∧
      (resourcePTRRecordUpdate sampleEnv updatePtrdname).out = .ok ∧
      (resourcePTRRecordUpdate sampleEnv updatePtrdname).out ≠ .error (.errorf
        ("'ip_addr' or 'cidr' are mandatory in reverse mapping zone " ++
          "and 'record_name' is mandatory in forward mapping zone") []) ∧
      (resourcePTRRecordUpdate sampleEnv updatePtrdname).out ≠ .error (.errorf
        "only one of 'ip_addr', 'cidr' and 'record_name' must be defined" []) :=
  ⟨by decide, by decide, by decide,
    (update_source_validation sampleEnv updatePtrdname sampleEnv_trimContract (by decide)
      (by decide)).2.2 (by decide) (by decide)⟩

/-! ## resourcePTRRecordGet -/

/-- C11. When `resourcePTRRecordGet` calls `searchObjectByRefOrInternalId` and the search
fails with the error `e`: if `e` is an `*ibclient.NotFoundError`, the function returns nil
and the resource data is the one it was given with the ID set to the empty string (no
attribute is written); if `e` is any other error, the function returns an error and the
resource data, ID and attributes, is unchanged. -/
theorem read_missing_object (E : Env) (d : ResourceData) (e : CalleeError)
    (hcall : Call.searchObjectByRefOrInternalId "PTR" ∈ (resourcePTRRecordGet E d).calls)
    (hfail : E.searchObjectByRefOrInternalId [] "PTR" d = .error e) :
    (e.notFound = true →
        (resourcePTRRecordGet E d).out = .ok ∧
        (resourcePTRRecordGet E d).d = d.SetId "" ∧
        (resourcePTRRecordGet E d).d.Id = "" ∧
        (resourcePTRRecordGet E d).d.writes = d.writes) ∧
      (e.notFound = false →
        (∃ err, (resourcePTRRecordGet E d).out = .error err) ∧
        (resourcePTRRecordGet E d).d = d) := by
  revert hcall
  simp only [resourcePTRRecordGet]
  cases hp : E.terraformDeserializeEAs (d.GetString .ext_attrs) with
  | error e1 => simp
  | ok extAttrs =>
    simp only [hfail]
    cases hn : e.notFound <;> simp [ResourceData.SetId, ResourceData.Id]

/-- Witness of C11: the search fails with a not-found error. -/
theorem read_missing_object_witness :
    Call.searchObjectByRefOrInternalId "PTR"
        ∈ (resourcePTRRecordGet (searchFailsEnv ⟨"not found", true⟩) storedResource).calls ∧
      (resourcePTRRecordGet (searchFailsEnv ⟨"not found", true⟩) storedResource).out = .ok ∧
      (resourcePTRRecordGet (searchFailsEnv ⟨"not found", true⟩) storedResource).d
        = storedResource.SetId "" ∧
      (resourcePTRRecordGet (searchFailsEnv ⟨"not found", true⟩) storedResource).d.Id = "" ∧
      (resourcePTRRecordGet (searchFailsEnv ⟨"not found", true⟩) storedResource).d.writes
        = storedResource.writes :=
  ⟨by decide,
    (read_missing_object (searchFailsEnv ⟨"not found", true⟩) storedResource
      ⟨"not found", true⟩ (by decide) (by rfl)).1 (by rfl)⟩

/-- C20. Three objects that a successful search can return, on which
`resourcePTRRecordGet` neither returns an error nor completes: a record without
`use_ttl` (panic in `!*obj.UseTtl`, line 288), a record without `ipv4addr` (panic in
`*obj.Ipv4Addr`, line 335), and an object that fails to decode and leaves `obj` nil (panic
in `obj.Ref`, line 280). -/
theorem read_panics_on_nil_pointer :
    (resourcePTRRecordGet (foundEnv ⟨some recordWithoutUseTtl, none⟩) storedResource).out
        = .panic .nilDereference ∧
      (resourcePTRRecordGet (foundEnv ⟨some recordWithoutIpv4, none⟩) storedResource).out
        = .panic .nilDereference ∧
      (resourcePTRRecordGet (foundEnv ⟨none, some sampleDecodeError⟩) storedResource).out
        = .panic .nilDereference ∧
      recordWithoutUseTtl.Ttl = some 0 ∧ recordWithoutUseTtl.UseTtl = none :=
  ⟨by decide, by decide, by decide, by decide, by decide⟩

/-- The writes of `readSetRest` leave `ttl` as it is. -/
theorem readSetRest_ttl (d : ResourceData) (calls : List Call) (obj : RecordPTR) :
    (readSetRest d calls obj).d.GetInt .ttl = d.GetInt .ttl := by
  simp only [readSetRest, set_str_eq, schemaType]
  cases addrOf obj <;> simp [ResourceData.GetInt, lastWrite, ResourceData.SetId]

/-- For a record with `use_ttl`, `readSetState` leaves in `ttl` the stored TTL (0 when the
record has none) if `use_ttl` is true, and `ttlUndef` if it is false. -/
theorem readSetState_ttl (E : Env) (d : ResourceData) (calls : List Call) (extAttrs : EA)
    (obj : RecordPTR) (u : Bool) (hu : obj.UseTtl = some u) :
    (readSetState E d calls extAttrs obj).d.GetInt .ttl
      = if u then ((obj.Ttl.getD 0 : Nat) : Int) else E.ttlUndef := by
  have hset : ∀ n : Int, d.Set .ttl (.int n)
      = .ok { d with writes := (Attr.ttl, Val.int n) :: d.writes } := by
    intro n
    simp [ResourceData.Set, schemaType, Val.type]
  simp only [readSetState, hu, hset, set_str_eq, schemaType]
  split
  · cases E.terraformSerializeEAs _ with
    | error e => cases u <;> cases obj.Ttl <;> simp [ResourceData.GetInt, lastWrite]
    | ok js =>
      simp only [readSetRest_ttl]
      cases u <;> cases obj.Ttl <;> simp [ResourceData.GetInt, lastWrite]
  · simp only [readSetRest_ttl]
    cases u <;> cases obj.Ttl <;> simp [ResourceData.GetInt, lastWrite]

/-- What `resourcePTRRecordGet` leaves in `ttl` when the search finds a record that
decodes and carries `use_ttl`: `ttlUndef` when `use_ttl` is false, whatever the stored TTL
is, and the stored TTL when `use_ttl` is true. -/
theorem read_sets_ttl (E : Env) (d : ResourceData) (m : EA) (found : FoundObject)
    (obj : RecordPTR) (u : Bool)
    (hparse : E.terraformDeserializeEAs (d.GetString .ext_attrs) = .ok m)
    (hsearch : E.searchObjectByRefOrInternalId [] "PTR" d = .ok found)
    (hdec : found.decoded = some obj) (herr : found.decodeErr = none)
    (hu : obj.UseTtl = some u) :
    (resourcePTRRecordGet E d).d.GetInt .ttl
      = if u then ((obj.Ttl.getD 0 : Nat) : Int) else E.ttlUndef := by
  simp only [resourcePTRRecordGet, hparse, hsearch, hdec, herr]
  exact readSetState_ttl E d _ m obj u hu

/-- The round trip of the TTL between Create and Read for the values below 4294967296: if
the TTL block of Create accepts the configured value `v` and yields `(useTtl, ttl)`, and
the record that Read finds carries exactly these two, then Read leaves `v` in `ttl`. -/
theorem ttl_round_trip (E : Env) (d : ResourceData) (m : EA) (found : FoundObject)
    (obj : RecordPTR) (v : Int) (u : Bool) (t : Nat)
    (hundef : E.ttlUndef < 0) (hacc : ttlOf E v = some (u, t)) (hrange : v < 4294967296)
    (hparse : E.terraformDeserializeEAs (d.GetString .ext_attrs) = .ok m)
    (hsearch : E.searchObjectByRefOrInternalId [] "PTR" d = .ok found)
    (hdec : found.decoded = some obj) (herr : found.decodeErr = none)
    (hu : obj.UseTtl = some u) (ht : obj.Ttl = some t) :
    (resourcePTRRecordGet E d).d.GetInt .ttl = v := by
  rw [read_sets_ttl E d m found obj u hparse hsearch hdec herr hu, ht]
  obtain ⟨hpos, hun, hneg⟩ := ttlOf_spec E v hundef
  by_cases h0 : 0 ≤ v
  · rw [hpos h0] at hacc
    cases hacc
    simpa using uint32_of_inRange v h0 hrange
  · by_cases h1 : v = E.ttlUndef
    · rw [hun h1] at hacc
      cases hacc
      simp [h1]
    · rw [hneg (by omega) h1] at hacc
      cases hacc

/-- Witness of `ttl_round_trip`: `ttl = 300`. -/
theorem ttl_round_trip_witness :
    (resourcePTRRecordGet (foundEnv ⟨some (sampleCreated createWithUserEAsArgs), none⟩)
      storedResource).d.GetInt .ttl = 300 :=
  ttl_round_trip (foundEnv ⟨some (sampleCreated createWithUserEAsArgs), none⟩) storedResource
    [] ⟨some (sampleCreated createWithUserEAsArgs), none⟩ (sampleCreated createWithUserEAsArgs)
    300 true 300 (by decide) (by decide) (by decide) (by rfl) (by rfl) (by rfl) (by rfl)
    (by rfl) (by rfl)

/-- C12. The configured value `ttl = 4294967296` is accepted by `resourcePTRRecordCreate`,
which passes `useTtl = true` and `ttl = 0` to `CreatePTRRecord`; when the record found
by `resourcePTRRecordGet` carries exactly these (`use_ttl` true, `ttl` 0), Read leaves 0
in `ttl`, not the configured 4294967296. -/
theorem ttl_round_trip_fails_for_4294967296 :
    (createWithIp 4294967296).GetInt .ttl = 4294967296 ∧
      (resourcePTRRecordCreate sampleEnv (createWithIp 4294967296)).out = .ok ∧
      (resourcePTRRecordCreate sampleEnv (createWithIp 4294967296)).calls.head?
        = some (.CreatePTRRecord "" createBigTtlArgs) ∧
      createBigTtlArgs.useTtl = true ∧ createBigTtlArgs.ttl = 0 ∧
      (sampleCreated createBigTtlArgs).UseTtl = some true ∧
      (sampleCreated createBigTtlArgs).Ttl = some 0 ∧
      (resourcePTRRecordGet (foundEnv ⟨some (sampleCreated createBigTtlArgs), none⟩)
        (resourcePTRRecordCreate sampleEnv (createWithIp 4294967296)).d).out = .ok ∧
      (resourcePTRRecordGet (foundEnv ⟨some (sampleCreated createBigTtlArgs), none⟩)
        (resourcePTRRecordCreate sampleEnv (createWithIp 4294967296)).d).d.GetInt .ttl = 0 ∧
      (resourcePTRRecordGet (foundEnv ⟨some (sampleCreated createBigTtlArgs), none⟩)
        (resourcePTRRecordCreate sampleEnv (createWithIp 4294967296)).d).d.GetInt .ttl
        ≠ (createWithIp 4294967296).GetInt .ttl :=
  ⟨by decide, by decide, by decide, by decide, by decide, by decide, by decide, by decide,
    by decide, by decide⟩

/-! ## resourcePTRRecordCreate: state and errors -/

/-- Unless it returns nil, `createSetState` leaves the resource ID as it was. -/
theorem createSetState_id (E : Env) (d : ResourceData) (calls : List Call)
    (t dv c : String) (id : internalResourceId) (rec : RecordPTR)
    (h : (createSetState E d calls t dv c id rec).out ≠ .ok) :
    (createSetState E d calls t dv c id rec).d.Id = d.Id := by
  revert h
  simp only [createSetState]
  cases ha : addrOf rec with
  | none => simp
  | some ip =>
    simp only [set_str_eq, schemaType]
    split
    · cases hv : E.GetDNSView calls t dv with
      | error e => simp [ResourceData.Id]
      | ok v => simp
    · simp

/-- The state side of `createCall`: a run without a call, and a run whose only call is a
`CreatePTRRecord` that failed, leave the resource data untouched; and unless the run
returns nil the resource ID is as it was. -/
theorem createCall_atomic (E : Env) (d : ResourceData) (nv dv pn rn ci ip c : String)
    (ea : EA) (id : internalResourceId) (t : String) (n : Nat) :
    ((createCall E d nv dv pn rn ci ip c ea id t n).calls = [] →
        (createCall E d nv dv pn rn ci ip c ea id t n).d = d) ∧
      (∀ t1 a ce, (createCall E d nv dv pn rn ci ip c ea id t n).calls
          = [.CreatePTRRecord t1 a] →
        E.CreatePTRRecord [] t1 a = .error ce →
        (createCall E d nv dv pn rn ci ip c ea id t n).d = d) ∧
      ((createCall E d nv dv pn rn ci ip c ea id t n).out ≠ .ok →
        (createCall E d nv dv pn rn ci ip c ea id t n).d.Id = d.Id) := by
  simp only [createCall]
  by_cases h0 : n = 0
  · simp [h0]
  · by_cases h1 : n = 1
    · cases httl : ttlOf E (d.GetInt .ttl) with
      | none => simp [h1]
      | some p =>
        obtain ⟨useTtl, ttl⟩ := p
        simp only [h1, one_ne_zero, if_false, ne_eq, not_true_eq_false]
        cases hc : E.CreatePTRRecord [] t ⟨nv, dv, pn, rn, ci, ip, useTtl, ttl, c, ea⟩ with
        | error e => simp
        | ok rec =>
          simp only []
          obtain ⟨⟨rest, hrest, _⟩, _, _⟩ :=
            createSetState_spec E d
              [.CreatePTRRecord t ⟨nv, dv, pn, rn, ci, ip, useTtl, ttl, c, ea⟩] t dv c id rec
          refine ⟨fun h => ?_, fun t1 a ce h hce => ?_, fun h => createSetState_id _ _ _ _ _ _ _ _ h⟩
          · rw [hrest] at h
            simp at h
          · rw [hrest] at h
            simp only [List.singleton_append, List.cons.injEq, Call.CreatePTRRecord.injEq] at h
            obtain ⟨⟨rfl, rfl⟩, _⟩ := h
            rw [hc] at hce
            cases hce
    · simp [h0, h1]

/-- C18. In `resourcePTRRecordCreate`, whenever an error is returned by a validation step
(no call was made) or because `CreatePTRRecord` itself failed (it is the only call, and
it returned an error), the resource data is as it was: no attribute has been written and
the resource ID is untouched. And in every run, unless the function returns nil (error
or panic), the resource ID is as it was: the ID is set only when nil is returned. -/
theorem create_atomic (E : Env) (d : ResourceData) :
    (∀ e, (resourcePTRRecordCreate E d).out = .error e →
        ((resourcePTRRecordCreate E d).calls = [] ∨
          ∃ t a ce, (resourcePTRRecordCreate E d).calls = [.CreatePTRRecord t a] ∧
            E.CreatePTRRecord [] t a = .error ce) →
        (resourcePTRRecordCreate E d).d = d ∧
        (resourcePTRRecordCreate E d).d.writes = d.writes ∧
        (resourcePTRRecordCreate E d).d.Id = d.Id) ∧
      ((resourcePTRRecordCreate E d).out ≠ .ok → (resourcePTRRecordCreate E d).d.Id = d.Id) := by
  rcases create_cases E d with ⟨_, _, hd, _⟩ | ⟨m, t, _, _, _, _, heq⟩
  · rw [hd]
    exact ⟨fun _ _ _ => ⟨rfl, rfl, rfl⟩, fun _ => rfl⟩
  · rw [heq]
    obtain ⟨h1, h2, h3⟩ := createCall_atomic E d
      (if (E.checkAndTrimSpaces (d.GetString .network_view)).1 = "" then E.defaultNetView
        else (E.checkAndTrimSpaces (d.GetString .network_view)).1)
      (E.checkAndTrimSpaces (d.GetString .dns_view)).1
      (E.checkAndTrimSpaces (d.GetString .ptrdname)).1
      (E.checkAndTrimSpaces (d.GetString .record_name)).1
      (E.checkAndTrimSpaces (d.GetString .cidr)).1
      (E.checkAndTrimSpaces (d.GetString .ip_addr)).1
      (d.GetString .comment)
      (m.set E.eaNameForInternalId (.str E.generateInternalId.String))
      E.generateInternalId t
      ((if (E.checkAndTrimSpaces (d.GetString .cidr)).1 ≠ "" then 1 else 0)
        + (if (E.checkAndTrimSpaces (d.GetString .ip_addr)).1 ≠ "" then 1 else 0)
        + (if (E.checkAndTrimSpaces (d.GetString .record_name)).1 ≠ "" then 1 else 0))
    refine ⟨fun e _ hw => ?_, h3⟩
    rcases hw with hw | ⟨t1, a, ce, hw, hce⟩
    · rw [h1 hw]
      exact ⟨rfl, rfl, rfl⟩
    · rw [h2 t1 a ce hw hce]
      exact ⟨rfl, rfl, rfl⟩

/-- Witness of C18: the appliance refuses the creation; the error of `CreatePTRRecord` is
returned and nothing has been written. -/
theorem create_atomic_witness :
    (resourcePTRRecordCreate failingCreateEnv (createWithIp 300)).out
        = .error (.errorf errFmtCreateFailed ["default", "IB.Data.Conflict"]) ∧
      (resourcePTRRecordCreate failingCreateEnv (createWithIp 300)).calls.length = 1 ∧
      (resourcePTRRecordCreate failingCreateEnv (createWithIp 300)).d = createWithIp 300 ∧
      (resourcePTRRecordCreate failingCreateEnv (createWithIp 300)).d.writes
        = (createWithIp 300).writes ∧
      (resourcePTRRecordCreate failingCreateEnv (createWithIp 300)).d.Id
        = (createWithIp 300).Id :=
  ⟨by decide, by decide,
    (create_atomic failingCreateEnv (createWithIp 300)).1
      (.errorf errFmtCreateFailed ["default", "IB.Data.Conflict"]) (by decide)
      (Or.inr ⟨"", { createBigTtlArgs with ttl := 300 }, ⟨"IB.Data.Conflict", false⟩,
        by decide, by rfl⟩)⟩

/-! ## resourcePTRRecordDelete -/

/-- C19, as amended. The outcomes of `resourcePTRRecordDelete` once it makes the lookup by
ref or internal ID. (1) If the lookup fails with an `*ibclient.NotFoundError`, the ID is
cleared, `DeletePTRRecord` is not called and nil is returned. (2) If the lookup fails with
any other error, an error is returned and `DeletePTRRecord` is not called. (3) If
`DeletePTRRecord` is called and returns an error, an error is returned in every case, and
the ID is cleared when `isNotFoundError` holds of that error. (4) If the lookup succeeds
and the found object fails to decode, an error is returned and `DeletePTRRecord` is not
called; if it decodes, `DeletePTRRecord` is called with the `Ref` of the found object,
and when that call returns no error, nil is returned. -/
theorem delete_outcomes (E : Env) (d : ResourceData)
    (hcall : Call.searchObjectByRefOrInternalId "PTR" ∈ (resourcePTRRecordDelete E d).calls) :
    (∀ e, E.searchObjectByRefOrInternalId [] "PTR" d = .error e →
        (∀ x ∈ (resourcePTRRecordDelete E d).calls, x.isDeletePTRRecord = false) ∧
        (e.notFound = true →
          (resourcePTRRecordDelete E d).out = .ok ∧
          (resourcePTRRecordDelete E d).d = d.SetId "") ∧
        (e.notFound = false → ∃ err, (resourcePTRRecordDelete E d).out = .error err)) ∧
      (∀ t ref e, Call.DeletePTRRecord t ref ∈ (resourcePTRRecordDelete E d).calls →
        E.DeletePTRRecord [.searchObjectByRefOrInternalId "PTR"] t ref = .error e →
        (∃ err, (resourcePTRRecordDelete E d).out = .error err) ∧
        (E.isNotFoundError e = true → (resourcePTRRecordDelete E d).d.Id = "")) ∧
      (∀ found, E.searchObjectByRefOrInternalId [] "PTR" d = .ok found →
        (∀ err, found.decodeErr = some err →
          (∃ e2, (resourcePTRRecordDelete E d).out = .error e2) ∧
          ∀ x ∈ (resourcePTRRecordDelete E d).calls, x.isDeletePTRRecord = false) ∧
        (found.decodeErr = none →
          ∃ t, (resourcePTRRecordDelete E d).calls
              = [.searchObjectByRefOrInternalId "PTR",
                  .DeletePTRRecord t (found.decoded.getD zeroRecordPTR).Ref] ∧
            ∀ r0, E.DeletePTRRecord [.searchObjectByRefOrInternalId "PTR"] t
                (found.decoded.getD zeroRecordPTR).Ref = .ok r0 →
              (resourcePTRRecordDelete E d).out = .ok)) := by
  revert hcall
  simp only [resourcePTRRecordDelete]
  cases hp : E.terraformDeserializeEAs (d.GetString .ext_attrs) with
  | error e1 => simp
  | ok extAttrs =>
    simp only []
    cases ht : tenantIdOf E extAttrs with
    | none => simp
    | some tenantID =>
      simp only []
      cases hs : E.searchObjectByRefOrInternalId [] "PTR" d with
      | error e =>
        intro _
        cases hn : e.notFound <;> simp [hn, Call.isDeletePTRRecord]
      | ok found =>
        intro _
        simp only []
        cases hderr : found.decodeErr with
        | some err => simp [hderr, Call.isDeletePTRRecord]
        | none =>
          simp only []
          cases hdel : E.DeletePTRRecord [.searchObjectByRefOrInternalId "PTR"] tenantID
              (found.decoded.getD zeroRecordPTR).Ref with
          | error e =>
            refine ⟨fun e1 he1 => ?_, fun t ref e1 hmem he1 => ?_, fun f hf => ?_⟩
            · cases he1
            · simp only [List.mem_cons, reduceCtorEq, Call.DeletePTRRecord.injEq,
                List.mem_nil_iff, or_false, false_or] at hmem
              obtain ⟨rfl, rfl⟩ := hmem
              rw [hdel] at he1
              cases he1
              refine ⟨⟨_, rfl⟩, fun hnf => ?_⟩
              simp [hnf, ResourceData.SetId, ResourceData.Id]
            · cases hf
              refine ⟨fun err h => ?_, fun _ => ⟨tenantID, rfl, fun r0 h => ?_⟩⟩
              · rw [hderr] at h
                cases h
              · rw [hdel] at h
                cases h
          | ok r1 =>
            refine ⟨fun e1 he1 => ?_, fun t ref e1 hmem he1 => ?_, fun f hf => ?_⟩
            · cases he1
            · simp only [List.mem_cons, reduceCtorEq, Call.DeletePTRRecord.injEq,
                List.mem_nil_iff, or_false, false_or] at hmem
              obtain ⟨rfl, rfl⟩ := hmem
              rw [hdel] at he1
              cases he1
            · cases hf
              refine ⟨fun err h => ?_, fun _ => ⟨tenantID, rfl, fun _ _ => rfl⟩⟩
              rw [hderr] at h
              cases h

/-- Witness of C19 as amended: the record is found and deleted. -/
theorem delete_outcomes_witness :
    Call.searchObjectByRefOrInternalId "PTR"
        ∈ (resourcePTRRecordDelete sampleEnv storedResource).calls ∧
      (resourcePTRRecordDelete sampleEnv storedResource).calls
        = [.searchObjectByRefOrInternalId "PTR", .DeletePTRRecord "" sampleRef] ∧
      (resourcePTRRecordDelete sampleEnv storedResource).out = .ok ∧
      ∃ t, (resourcePTRRecordDelete sampleEnv storedResource).calls
          = [.searchObjectByRefOrInternalId "PTR",
              .DeletePTRRecord t
                ((FoundObject.mk (some (sampleStored sampleRef)) none).decoded.getD
                  zeroRecordPTR).Ref] ∧
        ∀ r0, sampleEnv.DeletePTRRecord [.searchObjectByRefOrInternalId "PTR"] t
            ((FoundObject.mk (some (sampleStored sampleRef)) none).decoded.getD
              zeroRecordPTR).Ref = .ok r0 →
          (resourcePTRRecordDelete sampleEnv storedResource).out = .ok :=
  ⟨by decide, by decide, by decide,
    ((delete_outcomes sampleEnv storedResource (by decide)).2.2
      ⟨some (sampleStored sampleRef), none⟩ (by rfl)).2 (by rfl)⟩

/-- C19, counterexample to the claim as stated: the lookup succeeds, `DeletePTRRecord`
returns no error (it is not called), and yet `resourcePTRRecordDelete` does not return
nil: the found object fails to decode and the error of line 588 is returned. -/
theorem delete_decode_failure_returns_error :
    (foundEnv ⟨none, some sampleDecodeError⟩).searchObjectByRefOrInternalId [] "PTR"
        storedResource = .ok ⟨none, some sampleDecodeError⟩ ∧
      (resourcePTRRecordDelete (foundEnv ⟨none, some sampleDecodeError⟩) storedResource).calls
        = [.searchObjectByRefOrInternalId "PTR"] ∧
      (resourcePTRRecordDelete (foundEnv ⟨none, some sampleDecodeError⟩) storedResource).out
        = .error (.errorf errFmtDeleteDecode [sampleRef, sampleDecodeError.msg]) ∧
      (resourcePTRRecordDelete (foundEnv ⟨none, some sampleDecodeError⟩) storedResource).out
        ≠ .ok :=
  ⟨by rfl, by decide, by decide, by decide⟩

/-! ## infoblox_dtc_pool -/

/-- C13. In the model of the creation of an `infoblox_dtc_pool` resource: a pool whose
`lb_preferred_method` is "DYNAMIC_RATIO" and which defines no monitors and no
`lb_dynamic_ratio_preferred` fails with an error that matches
"lb_dynamic_ratio_preferred cannot be set when no monitors are defined", and no pool is
created. -/
theorem dtc_pool_dynamic_ratio_needs_monitors (createOnNios : DtcPoolConfig → Option String)
    (c : DtcPoolConfig) (hm : c.lb_preferred_method = "DYNAMIC_RATIO")
    (hmon : c.monitors = []) (hpref : c.lb_dynamic_ratio_preferred = none) :
    (∃ msg, (resourceDtcPoolCreate createOnNios c).err = some msg ∧
        errorMatches "lb_dynamic_ratio_preferred cannot be set when no monitors are defined"
          msg) ∧
      (resourceDtcPoolCreate createOnNios c).created = [] := by
  have hres : resourceDtcPoolCreate createOnNios c = ⟨some regexMissingMonitors, []⟩ := by
    simp [resourceDtcPoolCreate, hm, hmon, hpref]
  rw [hres]
  exact ⟨⟨_, rfl, "", "", by simp [regexMissingMonitors]⟩, rfl⟩

/-- Witness of C13: the pool of the first step of the acceptance test. -/
theorem dtc_pool_dynamic_ratio_needs_monitors_witness :
    (resourceDtcPoolCreate acceptingNios poolDynamicRatioOnly).err
        = some "lb_dynamic_ratio_preferred cannot be set when no monitors are defined" ∧
      (∃ msg, (resourceDtcPoolCreate acceptingNios poolDynamicRatioOnly).err = some msg ∧
        errorMatches "lb_dynamic_ratio_preferred cannot be set when no monitors are defined"
          msg) ∧
      (resourceDtcPoolCreate acceptingNios poolDynamicRatioOnly).created = [] :=
  ⟨by decide,
    dtc_pool_dynamic_ratio_needs_monitors acceptingNios poolDynamicRatioOnly (by decide)
      (by decide) (by decide)⟩

/-- C14. In the model of the creation of an `infoblox_dtc_pool` resource: a pool whose
`lb_preferred_method` is "TOPOLOGY" and which defines no `lb_preferred_topology` fails
with an error that matches "preferred topology cannot be nil when preferred load
balancing method is set to TOPOLOGY", and no pool is created. -/
theorem dtc_pool_topology_needs_topology (createOnNios : DtcPoolConfig → Option String)
    (c : DtcPoolConfig) (hm : c.lb_preferred_method = "TOPOLOGY")
    (htop : c.lb_preferred_topology = none) :
    (∃ msg, (resourceDtcPoolCreate createOnNios c).err = some msg ∧
        errorMatches
          ("preferred topology cannot be nil when preferred load balancing method " ++
            "is set to TOPOLOGY") msg) ∧
      (resourceDtcPoolCreate createOnNios c).created = [] := by
  have hres : resourceDtcPoolCreate createOnNios c
      = ⟨some regexMissingLbPreferredTopology, []⟩ := by
    simp [resourceDtcPoolCreate, hm, htop]
  rw [hres]
  exact ⟨⟨_, rfl, "", "", by simp [regexMissingLbPreferredTopology]⟩, rfl⟩

/-- Witness of C14: the pool of the second step of the acceptance test. -/
theorem dtc_pool_topology_needs_topology_witness :
    (resourceDtcPoolCreate acceptingNios poolTopologyOnly).err
        = some ("preferred topology cannot be nil when preferred load balancing method " ++
            "is set to TOPOLOGY") ∧
      (∃ msg, (resourceDtcPoolCreate acceptingNios poolTopologyOnly).err = some msg ∧
        errorMatches
          ("preferred topology cannot be nil when preferred load balancing method " ++
            "is set to TOPOLOGY") msg) ∧
      (resourceDtcPoolCreate acceptingNios poolTopologyOnly).created = [] :=
  ⟨by decide,
    dtc_pool_topology_needs_topology acceptingNios poolTopologyOnly (by decide) (by decide)⟩

/-- The model accepts the pool of the third step of the acceptance test, which the test
expects to be created. -/
theorem dtc_pool_round_robin_created :
    resourceDtcPoolCreate acceptingNios poolRoundRobin = ⟨none, [poolRoundRobin]⟩ := by
  decide

/-! ## resourcePTRRecordUpdate: the calls of a run -/

/-- A string has a positive length exactly when it is not the empty string. -/
theorem length_pos_iff_ne_empty (s : String) : s.length > 0 ↔ s ≠ "" := by
  constructor
  · intro h hs
    rw [hs] at h
    exact absurd h (by decide)
  · intro h
    cases s with
    | mk data =>
      cases data with
      | nil => exact absurd rfl h
      | cons c cs => simp [String.length]

/-- When `updateSetState` returns nil, `internal_id` holds the string form of the ID it
was given. -/
theorem updateSetState_internal_id (d : ResourceData) (calls : List Call)
    (id : internalResourceId) (rec : RecordPTR)
    (h : (updateSetState d calls id rec).res.out = .ok) :
    (updateSetState d calls id rec).res.d.GetString .internal_id = id.String := by
  revert h
  simp only [updateSetState]
  cases ha : addrOf rec with
  | none => simp
  | some ip => simp [set_str_eq, schemaType, ResourceData.GetString, lastWrite]

/-- More on `updateCall`: the tenant and the address of an `UpdatePTRRecord` call it
makes, the new attributes it hands to `mergeEAs`, the internal ID after a nil return, the
outcome when its `GetPTRRecordByRef` fails, and the arguments of its `GetPTRRecordByRef`. -/
theorem updateCall_calls (E : Env) (d : ResourceData) (calls : List Call) (t nv pn dv rn ci ip :
    String) (u : Bool) (ttl : Nat) (c : String) (ne oe : EA) :
    (∀ t1 a, Call.UpdatePTRRecord t1 a
          ∈ (updateCall E d calls t nv pn dv rn ci ip u ttl c ne oe).res.calls →
        Call.UpdatePTRRecord t1 a ∈ calls ∨ (t1 = t ∧ a.ipAddr = ip)) ∧
      (∀ n m o, Call.mergeEAs n m o
          ∈ (updateCall E d calls t nv pn dv rn ci ip u ttl c ne oe).res.calls →
        Call.mergeEAs n m o ∈ calls ∨
          m = ne.set E.eaNameForInternalId (.str (updateInternalIdString E d))) ∧
      ((updateCall E d calls t nv pn dv rn ci ip u ttl c ne oe).res.out = .ok →
        (updateCall E d calls t nv pn dv rn ci ip u ttl c ne oe).res.d.GetString .internal_id
          = updateInternalIdString E d) ∧
      (∀ e, E.GetPTRRecordByRef calls t d.Id = .error e →
        (∃ err, (updateCall E d calls t nv pn dv rn ci ip u ttl c ne oe).res.out = .error err) ∧
        (updateCall E d calls t nv pn dv rn ci ip u ttl c ne oe).res.calls
          = calls ++ [.GetPTRRecordByRef t d.Id]) ∧
      (∀ t1 r, Call.GetPTRRecordByRef t1 r
          ∈ (updateCall E d calls t nv pn dv rn ci ip u ttl c ne oe).res.calls →
        Call.GetPTRRecordByRef t1 r ∈ calls ∨ (t1 = t ∧ r = d.Id)) := by
  simp only [updateCall, updateInternalIdString]
  cases hg : E.GetPTRRecordByRef calls t d.Id with
  | error e => aesop
  | ok ptrrec =>
    simp only []
    cases hm : E.mergeEAs ptrrec.Ea _ oe with
    | error e => aesop
    | ok merged =>
      simp only []
      cases hu : E.UpdatePTRRecord _ t ⟨d.Id, nv, pn, rn, ci, ip, u, ttl, c, merged⟩ with
      | error e => aesop
      | ok recUpd =>
        simp only []
        refine ⟨fun t1 a h => ?_, fun n m o h => ?_, fun h => ?_, fun e h => ?_,
          fun t1 r h => ?_⟩
        · rw [(updateSetState_spec _ _ _ _).2.1] at h
          aesop
        · rw [(updateSetState_spec _ _ _ _).2.1] at h
          aesop
        · exact updateSetState_internal_id _ _ _ _ h
        · cases h
        · rw [(updateSetState_spec _ _ _ _).2.1] at h
          aesop

/-- A run of `updateCall` started without a fetch of the current address: `cidr` and
`ipAddr` are not both empty. -/
theorem updateCall_prepared_direct (E : Env) (d : ResourceData) (t nv pn dv rn ci ip : String)
    (u : Bool) (ttl : Nat) (c : String) (ne oe : EA) (hne : ¬ (ci = "" ∧ ip = "")) :
    (updateCall E d [] t nv pn dv rn ci ip u ttl c ne oe).prepared E d ci ip := by
  obtain ⟨hA, hB, hC, hD, hE⟩ := updateCall_calls E d [] t nv pn dv rn ci ip u ttl c ne oe
  refine ⟨fun t1 a h => ?_, fun n m o h => ?_, hC, fun t1 r e h he => ?_⟩
  · rcases hA t1 a h with h1 | ⟨_, h1⟩
    · cases h1
    · exact ⟨fun _ => h1, fun hboth => absurd hboth hne⟩
  · rcases hB n m o h with h1 | h1
    · cases h1
    · rw [h1, EA.get_set]
      simp
  · rcases hE t1 r h with h1 | ⟨rfl, rfl⟩
    · cases h1
    · obtain ⟨herr, hcalls⟩ := hD e he
      refine ⟨herr, fun x hx => ?_⟩
      rw [hcalls] at hx
      simp only [List.nil_append, List.mem_singleton] at hx
      subst hx
      rfl

/-- A run of `updateCall` started after the fetch of the current address: `cidr` and
`ipAddr` were both empty, the first `GetPTRRecordByRef` returned `rec`, and `ip1` is the
address taken from `rec`. -/
theorem updateCall_prepared_fetched (E : Env) (d : ResourceData) (t nv pn dv rn ci ip ip1 :
    String) (u : Bool) (ttl : Nat) (c : String) (ne oe : EA) (rec : RecordPTR) (v4 : String)
    (hboth : ci = "" ∧ ip = "")
    (hg : E.GetPTRRecordByRef [] t d.Id = .ok rec) (h4 : rec.Ipv4Addr = some v4)
    (hv4 : v4 ≠ "" → ip1 = v4) (hv6 : v4 = "" → rec.Ipv6Addr = some ip1) :
    (updateCall E d [.GetPTRRecordByRef t d.Id] t nv pn dv rn ci ip1 u ttl c ne oe).prepared
      E d ci ip := by
  obtain ⟨hA, hB, hC, _, hE⟩ :=
    updateCall_calls E d [.GetPTRRecordByRef t d.Id] t nv pn dv rn ci ip1 u ttl c ne oe
  refine ⟨fun t1 a h => ?_, fun n m o h => ?_, hC, fun t1 r e h he => ?_⟩
  · rcases hA t1 a h with h1 | ⟨rfl, h1⟩
    · simp at h1
    · refine ⟨fun hne => ?_, fun _ => ⟨rec, v4, hg, h4, fun hv => ?_, fun hv => ?_⟩⟩
      · exact absurd hboth hne
      · rw [h1]
        exact hv4 hv
      · rw [h1]
        exact hv6 hv
  · rcases hB n m o h with h1 | h1
    · simp at h1
    · rw [h1, EA.get_set]
      simp
  · have ht : t1 = t := by
      rcases hE t1 r h with h1 | ⟨h1, _⟩
      · simp at h1
        exact h1.1
      · exact h1
    subst ht
    rw [hg] at he
    cases he

/-- A run that stops before any call, with an error or a panic. -/
theorem stopped_prepared (E : Env) (d : ResourceData) (ci ip : String) (out : Outcome)
    (flag : Bool) (hout : out ≠ .ok) :
    UpdateRun.prepared E d ci ip ⟨⟨out, d, []⟩, flag⟩ := by
  refine ⟨fun t a h => ?_, fun n m o h => ?_, fun h => absurd h hout, fun t r e h => ?_⟩
  · cases h
  · cases h
  · cases h

/-- Every run of `updatePrepare` has the properties of `prepared`. -/
theorem updatePrepare_prepared (E : Env) (d : ResourceData) (nv pn dv rn ci ip : String) :
    (updatePrepare E d nv pn dv rn ci ip).prepared E d ci ip := by
  simp only [updatePrepare]
  cases hn : E.terraformDeserializeEAs (d.GetChangeString .ext_attrs).2 with
  | error e => exact stopped_prepared E d ci ip _ _ (by simp)
  | ok newEAs =>
    simp only []
    cases ho : E.terraformDeserializeEAs (d.GetChangeString .ext_attrs).1 with
    | error e => exact stopped_prepared E d ci ip _ _ (by simp)
    | ok oldEAs =>
      simp only []
      cases ht : tenantIdOf E newEAs with
      | none => exact stopped_prepared E d ci ip _ _ (by simp)
      | some t =>
        simp only []
        cases httl : ttlOf E (d.GetInt .ttl) with
        | none => exact stopped_prepared E d ci ip _ _ (by simp)
        | some p =>
          obtain ⟨u, ttl⟩ := p
          simp only []
          by_cases hboth : ci = "" ∧ ip = ""
          · simp only [hboth, and_self, if_true]
            cases hg : E.GetPTRRecordByRef [] t d.Id with
            | error e =>
              refine ⟨fun t1 a h => ?_, fun n m o h => ?_, fun h => ?_, fun t1 r e1 h he => ?_⟩
              · simp at h
              · simp at h
              · cases h
              · exact ⟨⟨_, rfl⟩, by simp [Call.isUpdatePTRRecord]⟩
            | ok rec =>
              simp only []
              cases h4 : rec.Ipv4Addr with
              | none =>
                refine ⟨fun t1 a h => ?_, fun n m o h => ?_, fun h => ?_,
                  fun t1 r e1 h he => ?_⟩
                · simp at h
                · simp at h
                · cases h
                · simp only [List.mem_singleton, Call.GetPTRRecordByRef.injEq] at h
                  obtain ⟨rfl, _⟩ := h
                  rw [hg] at he
                  cases he
              | some v4 =>
                simp only []
                by_cases hlen : v4.length > 0
                · simp only [hlen, if_true]
                  exact updateCall_prepared_fetched E d t nv pn dv rn "" "" v4 u ttl _ _ _ rec v4
                    ⟨rfl, rfl⟩ hg h4 (fun _ => rfl)
                    (fun hv => absurd hv ((length_pos_iff_ne_empty v4).mp hlen))
                · simp only [hlen, if_false]
                  have hv4 : v4 = "" := by
                    by_contra hne
                    exact hlen ((length_pos_iff_ne_empty v4).mpr hne)
                  cases h6 : rec.Ipv6Addr with
                  | none =>
                    refine ⟨fun t1 a h => ?_, fun n m o h => ?_, fun h => ?_,
                      fun t1 r e1 h he => ?_⟩
                    · simp at h
                    · simp at h
                    · cases h
                    · simp only [List.mem_singleton, Call.GetPTRRecordByRef.injEq] at h
                      obtain ⟨rfl, _⟩ := h
                      rw [hg] at he
                      cases he
                  | some v6 =>
                    exact updateCall_prepared_fetched E d t nv pn dv rn "" "" v6 u ttl _ _ _ rec
                      v4 ⟨rfl, rfl⟩ hg h4 (fun hv => absurd hv4 hv) (fun _ => h6)
          · simp only [hboth, if_false]
            exact updateCall_prepared_direct E d t nv pn dv rn ci ip u ttl _ _ _ hboth

/-- The two ways `updateSourceCheck` goes: it stops with one of the two errors on the
address sources before any call, or it is `updatePrepare`. -/
theorem updateSourceCheck_cases (E : Env) (d : ResourceData) (nv pn dv rn ci ip : String)
    (n c : Nat) :
    ((updateSourceCheck E d nv pn dv rn ci ip n c).res.calls = [] ∧
        ∃ e, (updateSourceCheck E d nv pn dv rn ci ip n c).res.out = .error e) ∨
      updateSourceCheck E d nv pn dv rn ci ip n c = updatePrepare E d nv pn dv rn ci ip := by
  unfold updateSourceCheck
  by_cases h0 : n = 0
  · simp [h0]
  · by_cases h1 : c > 1
    · simp [h0, h1]
    · simp [h0, h1]

/-- The two ways the body of `resourcePTRRecordUpdate` goes: it stops with an error before
any call, or none of the three fixed fields has changed, `checkAndTrimSpaces` reports
none of the three sources, and the body is `updatePrepare` on the values that lines
393-442 leave in `recordName`, `cidr` and `ipAddr`. -/
theorem updateBody_cases (E : Env) (d : ResourceData) :
    ((resourcePTRRecordUpdateBody E d).res.calls = [] ∧
        ∃ e, (resourcePTRRecordUpdateBody E d).res.out = .error e) ∨
      ((E.checkAndTrimSpaces (d.GetString .record_name)).2 = false ∧
        (E.checkAndTrimSpaces (d.GetString .ip_addr)).2 = false ∧
        (E.checkAndTrimSpaces (d.GetString .cidr)).2 = false ∧
        resourcePTRRecordUpdateBody E d =
          updatePrepare E d (d.GetString .network_view) (d.GetString .ptrdname)
            (d.GetString .dns_view)
            (if d.HasChange .cidr = true ∧ (E.checkAndTrimSpaces (d.GetString .cidr)).1 ≠ ""
              then ""
              else if d.HasChange .ip_addr = true ∧
                  (E.checkAndTrimSpaces (d.GetString .ip_addr)).1 ≠ "" then ""
              else (E.checkAndTrimSpaces (d.GetString .record_name)).1)
            (if (!d.HasChange .cidr) = true then ""
              else (E.checkAndTrimSpaces (d.GetString .cidr)).1)
            (if d.HasChange .cidr = true ∧ (E.checkAndTrimSpaces (d.GetString .cidr)).1 ≠ ""
              then "" else (E.checkAndTrimSpaces (d.GetString .ip_addr)).1)) := by
  simp only [resourcePTRRecordUpdateBody]
  cases c1 : d.HasChange .internal_id
  swap
  · simp
  cases c2 : d.HasChange .network_view
  swap
  · simp
  cases c3 : d.HasChange .dns_view
  swap
  · simp
  cases t1 : (E.checkAndTrimSpaces (d.GetString .record_name)).2
  swap
  · simp
  cases t2 : (E.checkAndTrimSpaces (d.GetString .ip_addr)).2
  swap
  · simp
  cases t3 : (E.checkAndTrimSpaces (d.GetString .cidr)).2
  swap
  · simp
  simp only [Bool.false_eq_true, if_false, true_and]
  rcases updateSourceCheck_cases E d _ _ _ _ _ _ _ _ with h | h
  · exact Or.inl h
  · exact Or.inr h

/-- The arguments of an `UpdatePTRRecord` call of `resourcePTRRecordUpdate` in terms of
the configured values, when `checkAndTrimSpaces` keeps the trim contract: the record name
and the cidr are the values that lines 400-442 leave in `recordName` and `cidr`, and the
address is the value left in `ipAddr` unless that and `cidr` are both empty, in which
case it is the address of the record that the first `GetPTRRecordByRef` returned. -/
theorem update_call_args (E : Env) (d : ResourceData) (t : String) (a : UpdatePTRRecordArgs)
    (hc : TrimContract E)
    (hcall : Call.UpdatePTRRecord t a ∈ (resourcePTRRecordUpdate E d).calls) :
    a.recordName =
        (if d.HasChange .cidr = true ∧ d.GetString .cidr ≠ "" then ""
          else if d.HasChange .ip_addr = true ∧ d.GetString .ip_addr ≠ "" then ""
          else d.GetString .record_name) ∧
      a.cidr = (if (!d.HasChange .cidr) = true then "" else d.GetString .cidr) ∧
      UpdateRun.prepared E d
        (if (!d.HasChange .cidr) = true then "" else d.GetString .cidr)
        (if d.HasChange .cidr = true ∧ d.GetString .cidr ≠ "" then ""
          else d.GetString .ip_addr)
        (resourcePTRRecordUpdateBody E d) := by
  rw [(update_out_calls E d).2] at hcall
  rcases updateBody_cases E d with ⟨hnil, _⟩ | ⟨t1, t2, t3, heq⟩
  · rw [hnil] at hcall
    cases hcall
  · rw [hc _ t1, hc _ t2, hc _ t3] at heq
    rw [heq] at hcall ⊢
    obtain ⟨_, _, _, _, h5⟩ := updatePrepare_afterSourceCheck E d
      (d.GetString .network_view) (d.GetString .ptrdname) (d.GetString .dns_view)
      (if d.HasChange .cidr = true ∧ d.GetString .cidr ≠ "" then ""
        else if d.HasChange .ip_addr = true ∧ d.GetString .ip_addr ≠ "" then ""
        else d.GetString .record_name)
      (if (!d.HasChange .cidr) = true then "" else d.GetString .cidr)
      (if d.HasChange .cidr = true ∧ d.GetString .cidr ≠ "" then "" else d.GetString .ip_addr)
    exact ⟨(h5 t a hcall).1, (h5 t a hcall).2, updatePrepare_prepared E d _ _ _ _ _ _⟩

/-- C15. For every `UpdatePTRRecord` call that `resourcePTRRecordUpdate` makes (with a
`checkAndTrimSpaces` that hands values back unchanged when it reports no trimming):
(1) if `cidr` changed to a non-empty value, the call gets that cidr, an empty record name
and an empty address; (2) if `ip_addr` changed to a non-empty value and `cidr` did not
change, the call gets that address, an empty record name and an empty cidr. -/
theorem update_disables_lower_sources (E : Env) (d : ResourceData) (t : String)
    (a : UpdatePTRRecordArgs) (hc : TrimContract E)
    (hcall : Call.UpdatePTRRecord t a ∈ (resourcePTRRecordUpdate E d).calls) :
    (d.HasChange .cidr = true → d.GetString .cidr ≠ "" →
        a.cidr = d.GetString .cidr ∧ a.recordName = "" ∧ a.ipAddr = "") ∧
      (d.HasChange .ip_addr = true → d.GetString .ip_addr ≠ "" → d.HasChange .cidr = false →
        a.ipAddr = d.GetString .ip_addr ∧ a.recordName = "" ∧ a.cidr = "") := by
  obtain ⟨hrn, hci, hprep, _⟩ := update_call_args E d t a hc hcall
  have hcall2 := hcall
  rw [(update_out_calls E d).2] at hcall2
  obtain ⟨hdirect, _⟩ := hprep t a hcall2
  refine ⟨fun h1 h2 => ?_, fun h1 h2 h3 => ?_⟩
  · simp only [h1, h2, ne_eq, not_false_eq_true, and_self, if_true, Bool.not_true,
      Bool.false_eq_true, if_false] at hrn hci hdirect
    exact ⟨hci, hrn, by simpa using hdirect⟩
  · simp only [h1, h2, h3, ne_eq, not_false_eq_true, and_self, if_true, Bool.not_false,
      Bool.false_eq_true, false_and, if_false] at hrn hci hdirect
    exact ⟨by simpa using hdirect, hrn, hci⟩

/-- Witness of C15: `cidr` changes to "10.0.1.0/24" while `ip_addr` and `record_name` are
set; the call carries the new cidr, no record name and no address. -/
theorem update_disables_lower_sources_witness :
    Call.UpdatePTRRecord "" updateCidrArgs ∈ (resourcePTRRecordUpdate sampleEnv updateCidr).calls ∧
      updateCidr.HasChange .cidr = true ∧ updateCidr.GetString .cidr = "10.0.1.0/24" ∧
      updateCidr.GetString .ip_addr = "10.0.0.1" ∧
      updateCidrArgs.cidr = updateCidr.GetString .cidr ∧ updateCidrArgs.recordName = "" ∧
      updateCidrArgs.ipAddr = "" :=
  ⟨by decide, by decide, by decide, by decide,
    (update_disables_lower_sources sampleEnv updateCidr "" updateCidrArgs
      sampleEnv_trimContract (by decide)).1 (by decide) (by decide)⟩

/-- C16. In `resourcePTRRecordUpdate` (with a `checkAndTrimSpaces` that hands values back
unchanged when it reports no trimming): for every `UpdatePTRRecord` call made when the
effective cidr is empty (`cidr` is unchanged or empty) and the configured `ip_addr` is
empty, the address argument is the address of the record that `GetPTRRecordByRef(d.Id())`
returned first: its IPv4 address if that is not empty, otherwise its IPv6 address. And
whenever that first `GetPTRRecordByRef` fails, an error is returned and `UpdatePTRRecord`
is not called. -/
theorem update_keeps_current_address (E : Env) (d : ResourceData) (hc : TrimContract E) :
    (∀ t a, Call.UpdatePTRRecord t a ∈ (resourcePTRRecordUpdate E d).calls →
        (d.HasChange .cidr = false ∨ d.GetString .cidr = "") → d.GetString .ip_addr = "" →
        ∃ rec v4, E.GetPTRRecordByRef [] t d.Id = .ok rec ∧ rec.Ipv4Addr = some v4 ∧
          (v4 ≠ "" → a.ipAddr = v4) ∧ (v4 = "" → rec.Ipv6Addr = some a.ipAddr)) ∧
      (∀ t r e, Call.GetPTRRecordByRef t r ∈ (resourcePTRRecordUpdate E d).calls →
        E.GetPTRRecordByRef [] t d.Id = .error e →
        (∃ err, (resourcePTRRecordUpdate E d).out = .error err) ∧
        ∀ x ∈ (resourcePTRRecordUpdate E d).calls, x.isUpdatePTRRecord = false) := by
  refine ⟨fun t a hcall hci hip => ?_, fun t r e hcall he => ?_⟩
  · obtain ⟨_, _, hprep, _⟩ := update_call_args E d t a hc hcall
    rw [(update_out_calls E d).2] at hcall
    refine (hprep t a hcall).2 ⟨?_, ?_⟩
    · rcases hci with h | h
      · simp [h]
      · simp [h]
    · simp [hip]
  · rw [(update_out_calls E d).1, (update_out_calls E d).2] at *
    rcases updateBody_cases E d with ⟨hnil, _⟩ | ⟨_, _, _, heq⟩
    · rw [hnil] at hcall
      cases hcall
    · rw [heq] at hcall ⊢
      exact (updatePrepare_prepared E d _ _ _ _ _ _).2.2.2 t r e hcall he

/-- Witness of C16: only `record_name` changes and neither `cidr` nor `ip_addr` is set;
the call carries the address "10.0.0.1" of the record read from the appliance. -/
theorem update_keeps_current_address_witness :
    Call.UpdatePTRRecord "" updateRecordNameArgs
        ∈ (resourcePTRRecordUpdate sampleEnv updateRecordName).calls ∧
      updateRecordName.GetString .cidr = "" ∧ updateRecordName.GetString .ip_addr = "" ∧
      updateRecordNameArgs.ipAddr = "10.0.0.1" ∧
      (∃ rec v4, sampleEnv.GetPTRRecordByRef [] "" updateRecordName.Id = .ok rec ∧
        rec.Ipv4Addr = some v4 ∧ (v4 ≠ "" → updateRecordNameArgs.ipAddr = v4) ∧
        (v4 = "" → rec.Ipv6Addr = some updateRecordNameArgs.ipAddr)) ∧
      Call.GetPTRRecordByRef "" sampleRef
        ∈ (resourcePTRRecordUpdate failingFetchEnv updateRecordName).calls ∧
      ((∃ err, (resourcePTRRecordUpdate failingFetchEnv updateRecordName).out = .error err) ∧
        ∀ x ∈ (resourcePTRRecordUpdate failingFetchEnv updateRecordName).calls,
          x.isUpdatePTRRecord = false) :=
  ⟨by decide, by decide, by decide, by decide,
    (update_keeps_current_address sampleEnv updateRecordName sampleEnv_trimContract).1 ""
      updateRecordNameArgs (by decide) (Or.inr (by decide)) (by decide),
    by decide,
    (update_keeps_current_address failingFetchEnv updateRecordName
      (fun s h => sampleEnv_trimContract s h)).2 "" sampleRef ⟨"not found", true⟩ (by decide)
      (by rfl)⟩

/-- The deferred function leaves `internal_id` as it is. -/
theorem revertState_internal_id (d : ResourceData) :
    (revertState d).GetString .internal_id = d.GetString .internal_id := by
  simp [revertState, ResourceData.SetIgnoringError, ResourceData.Set, schemaType, Val.type,
    ResourceData.GetString, lastWrite]

/-- With a non-empty `internal_id`, `updateCall` does not depend on the generated ID. -/
theorem updateCall_generated_unused (E : Env) (d : ResourceData) (id1 : internalResourceId)
    (calls : List Call) (t nv pn dv rn ci ip : String) (u : Bool) (ttl : Nat) (c : String)
    (ne oe : EA) (hs : d.GetString .internal_id ≠ "") :
    updateCall { E with generateInternalId := id1 } d calls t nv pn dv rn ci ip u ttl c ne oe
      = updateCall E d calls t nv pn dv rn ci ip u ttl c ne oe := by
  simp only [updateCall, hs, if_false]

/-- With a non-empty `internal_id`, `updatePrepare` does not depend on the generated ID. -/
theorem updatePrepare_generated_unused (E : Env) (d : ResourceData) (id1 : internalResourceId)
    (nv pn dv rn ci ip : String) (hs : d.GetString .internal_id ≠ "") :
    updatePrepare { E with generateInternalId := id1 } d nv pn dv rn ci ip
      = updatePrepare E d nv pn dv rn ci ip := by
  simp only [updatePrepare, tenantIdOf, ttlOf, updateCall_generated_unused E d id1 _ _ _ _ _ _
    _ _ _ _ _ _ _ hs]

/-- C17. If the attribute `internal_id` is a non-empty string s, then
`resourcePTRRecordUpdate` does not use a newly generated ID (its whole run is the same
whatever ID `generateInternalId` would yield, so a new ID matters only when s is empty);
in every `mergeEAs` call the map of new attributes holds
`newInternalResourceIdFromString(s).String()` under `eaNameForInternalId`; and after a nil
return `internal_id` holds that same string. -/
theorem update_keeps_internal_id (E : Env) (d : ResourceData)
    (hs : d.GetString .internal_id ≠ "") :
    (∀ id1, resourcePTRRecordUpdate { E with generateInternalId := id1 } d
        = resourcePTRRecordUpdate E d) ∧
      (∀ n m o, Call.mergeEAs n m o ∈ (resourcePTRRecordUpdate E d).calls →
        m.get E.eaNameForInternalId
          = some (.str (E.newInternalResourceIdFromString (d.GetString .internal_id)).String)) ∧
      ((resourcePTRRecordUpdate E d).out = .ok →
        (resourcePTRRecordUpdate E d).d.GetString .internal_id
          = (E.newInternalResourceIdFromString (d.GetString .internal_id)).String) := by
  have hid : updateInternalIdString E d
      = (E.newInternalResourceIdFromString (d.GetString .internal_id)).String := by
    simp [updateInternalIdString, hs]
  refine ⟨fun id1 => ?_, fun n m o hcall => ?_, fun hok => ?_⟩
  · simp only [resourcePTRRecordUpdate, resourcePTRRecordUpdateBody, updateSourceCheck,
      updatePrepare_generated_unused E d id1 _ _ _ _ _ _ hs]
  · rw [(update_out_calls E d).2] at hcall
    rcases updateBody_cases E d with ⟨hnil, _⟩ | ⟨_, _, _, heq⟩
    · rw [hnil] at hcall
      cases hcall
    · rw [heq] at hcall
      rw [← hid]
      exact (updatePrepare_prepared E d _ _ _ _ _ _).2.1 n m o hcall
  · have hd : (resourcePTRRecordUpdate E d).d.GetString .internal_id
        = (resourcePTRRecordUpdateBody E d).res.d.GetString .internal_id := by
      simp only [resourcePTRRecordUpdate]
      split
      · exact revertState_internal_id _
      · rfl
    rw [hd, ← hid]
    rw [(update_out_calls E d).1] at hok
    rcases updateBody_cases E d with ⟨_, e, he⟩ | ⟨_, _, _, heq⟩
    · rw [he] at hok
      cases hok
    · rw [heq] at hok ⊢
      exact (updatePrepare_prepared E d _ _ _ _ _ _).2.2.1 hok

/-- Witness of C17: the update of `ptrdname` of a resource whose `internal_id` is "id-1". -/
theorem update_keeps_internal_id_witness :
    updatePtrdname.GetString .internal_id = "id-1" ∧
      (resourcePTRRecordUpdate sampleEnv updatePtrdname).out = .ok ∧
      (resourcePTRRecordUpdate sampleEnv updatePtrdname).d.GetString .internal_id = "id-1" ∧
      Call.mergeEAs [] [("Terraform Internal ID", .str "id-1")] []
        ∈ (resourcePTRRecordUpdate sampleEnv updatePtrdname).calls ∧
      (resourcePTRRecordUpdate sampleEnv updatePtrdname).d.GetString .internal_id
        = (sampleEnv.newInternalResourceIdFromString
            (updatePtrdname.GetString .internal_id)).String :=
  ⟨by decide, by decide, by decide, by decide,
    (update_keeps_internal_id sampleEnv updatePtrdname (by decide)).2.2 (by decide)⟩

end Infoblox
